import Mathlib
/-!
Verification development for the Symbiotic browser IDE's agent pipeline
(`src/App.tsx` and its template table `src/templates.ts`).

The TypeScript source is shallowly embedded as executable Lean functions.
JavaScript strings are modelled by `String`/`List Char`; the JS `x || y`
idiom on strings is `jsOr` (the empty string is the only falsy string that
occurs at those call sites, and `null`/`undefined` response text is
modelled as `""`, which behaves identically under `||`).  External browser
primitives (the Gemini model service and `JSON.parse`) are modelled as an
explicit environment `Env` of oracle functions, mirroring the spec's view
of the model backend as an opaque external service.
-/

namespace Symb

/-- Literal left-brace character of the scanned JSON text. -/
def openBrace : Char := Char.ofNat 123

/-- Literal right-brace character of the scanned JSON text. -/
def closeBrace : Char := Char.ofNat 125

/-- Literal double-quote character. -/
def quoteChar : Char := Char.ofNat 34

/-- Literal backslash character. -/
def backslashChar : Char := Char.ofNat 92

/-- Embedding of the JS string `x || y` idiom for strings: the empty string
is falsy and selects the fallback. -/
def jsOr (x y : String) : String := if x = "" then y else x

/-- ASCII lower-casing of one character (JS `toLowerCase` restricted to
ASCII, which covers every keyword and marker the source compares). -/
def toLowerChar (c : Char) : Char :=
  if 'A' ≤ c ∧ c ≤ 'Z' then Char.ofNat (c.toNat + 32) else c

/-- ASCII string lower-casing (JS `toLowerCase`). -/
def jsToLower (s : String) : String := ⟨s.data.map toLowerChar⟩

/-- ASCII whitespace as trimmed by JS `String.trim` (the additional Unicode
space characters JS also trims do not occur in any modelled input). -/
def isJsSpace (c : Char) : Bool :=
  c = ' ' || c = '\t' || c = '\n' || c = '\r' || c.toNat = 11 || c.toNat = 12

/-- Embedding of JS `String.trim`. -/
def jsTrim (s : String) : String :=
  ⟨((s.data.dropWhile isJsSpace).reverse.dropWhile isJsSpace).reverse⟩

/-- Test whether `needle` is a prefix of `hay` (JS `String.startsWith`). -/
def startsWithL : List Char → List Char → Bool
  | [], _ => true
  | _ :: _, [] => false
  | a :: as, b :: bs => a = b && startsWithL as bs

/-- Test whether `needle` occurs as a contiguous substring of `hay`
(JS `String.includes`). -/
def hasSubL (needle : List Char) : List Char → Bool
  | [] => startsWithL needle []
  | c :: rest => startsWithL needle (c :: rest) || hasSubL needle rest

/-- String-level substring containment, `hay.includes(needle)` in JS. -/
def containsSub (hay needle : String) : Bool := hasSubL needle.data hay.data

/-- Index of the first `'{'` in a character list (JS `indexOf('{')`),
`none` when there is no open brace. -/
def firstIndexOfOpen : List Char → Option Nat
  | [] => none
  | c :: rest =>
      if c = openBrace then some 0 else (firstIndexOfOpen rest).map (· + 1)

/-- Index of the last `'}'` in a character list (JS `lastIndexOf('}')`),
`none` when there is no close brace. -/
def lastIndexOfClose : List Char → Option Nat
  | [] => none
  | c :: rest =>
      match lastIndexOfClose rest with
      | some j => some (j + 1)
      | none => if c = closeBrace then some 0 else none

/-- Embedding of the scanning loop of `cleanJson` (`src/App.tsx` lines
47-58).  `consumed` counts the characters already processed starting from
the first brace; `stack`, `inStr`, `esc` are the loop's mutable locals
`stack`, `inString`, `escaped`.  Returns the number of characters of the
balanced object when the nesting counter first returns to zero at an
unquoted `'}'`, and `none` when the text ends first. -/
def cleanJsonLoop : List Char → Nat → Int → Bool → Bool → Option Nat
  | [], _, _, _, _ => none
  | c :: rest, consumed, stack, inStr, esc =>
      let inStr1 := if c = quoteChar ∧ esc = false then !inStr else inStr
      let stack1 := if inStr1 then stack
                    else if c = openBrace then stack + 1
                    else if c = closeBrace then stack - 1
                    else stack
      if inStr1 = false ∧ c = closeBrace ∧ stack1 = 0 then some (consumed + 1)
      else cleanJsonLoop rest (consumed + 1) stack1 inStr1
            (decide (c = backslashChar) && !esc)

/-- Embedding of the Output Extractor `cleanJson` (`src/App.tsx` lines
38-62) on character lists.  An empty input and an input without `'{'`
both return the input itself, exactly as in the source where
`if (!text) return ""` and `indexOf === -1` coincide with the identity. -/
def cleanJsonL (text : List Char) : List Char :=
  match firstIndexOfOpen text with
  | none => text
  | some i =>
      match cleanJsonLoop (text.drop i) 0 0 false false with
      | some n => (text.drop i).take n
      | none =>
          match lastIndexOfClose text with
          | some j => if i < j then (text.drop i).take (j + 1 - i) else text
          | none => text

/-- String-level Output Extractor `cleanJson`. -/
def cleanJson (text : String) : String := ⟨cleanJsonL text.data⟩

/-- State of the spec-side scan of §4.1: a nesting counter `depth`, a
string-mode flag `inStr` that is toggled by each unescaped quote, and an
escape flag `esc` for backslash-escaped characters. -/
structure SpecState where
  depth : Int
  inStr : Bool
  esc : Bool
deriving DecidableEq, Repr

/-- Initial spec-side scan state. -/
def spec0 : SpecState := ⟨0, false, false⟩

/-- One character of the spec-side scan: an unescaped quote toggles
string-mode; outside strings `'{'` and `'}'` move the nesting counter; a
backslash that is not itself escaped arms the escape flag. -/
def specStep (st : SpecState) (c : Char) : SpecState :=
  let inStr1 := if c = quoteChar ∧ st.esc = false then !st.inStr else st.inStr
  let depth1 := if inStr1 then st.depth
                else if c = openBrace then st.depth + 1
                else if c = closeBrace then st.depth - 1
                else st.depth
  ⟨depth1, inStr1, decide (c = backslashChar) && !st.esc⟩

/-- Run the spec-side scan over a character list. -/
def runSpecFrom (st : SpecState) : List Char → SpecState
  | [] => st
  | c :: rest => runSpecFrom (specStep st c) rest

/-- Formalisation of the spec's "syntactically balanced `{...}` object":
the text starts with `'{'`, the nesting counter (ignoring braces inside
double-quoted strings, honouring backslash-escaped quotes) is back at zero
after the whole text, and at no proper non-empty prefix. -/
def BalancedObject (obj : List Char) : Prop :=
  obj.head? = some openBrace ∧
  (runSpecFrom spec0 obj).depth = 0 ∧
  ∀ n, n < obj.length → 0 < n → (runSpecFrom spec0 (obj.take n)).depth ≠ 0

instance (obj : List Char) : Decidable (BalancedObject obj) := by
  unfold BalancedObject; infer_instance

/-- Spec-side fallback span of §4.1: the substring from the first `'{'`
through the last `'}'`, when the latter lies after the former. -/
def specSpanOpenClose (s : String) : Option String :=
  match firstIndexOfOpen s.data, lastIndexOfClose s.data with
  | some i, some j =>
      if i < j then some ⟨(s.data.drop i).take (j + 1 - i)⟩ else none
  | _, _ => none

/-- Spec-side "span between the first and last brace" reading where a brace
is either `'{'` or `'}'`: inclusive slice between the first and the last
brace character of either kind. -/
def specSpanAnyBrace (s : String) : Option String :=
  let idxs := (List.range s.data.length).filter
    (fun n => decide (s.data.getD n ' ' = openBrace ∨ s.data.getD n ' ' = closeBrace))
  match idxs.head?, idxs.getLast? with
  | some i, some j => some ⟨(s.data.drop i).take (j + 1 - i)⟩
  | _, _ => none

/-- Keyword-detectable keys of the `TEMPLATES` table of `src/templates.ts`.
The table also holds a fifth entry `generic` that no code path references. -/
inductive TemplateKey
  | kanban
  | calculator
  | todo
  | login
deriving DecidableEq, Repr

/-- Filename/content pair of one canned template (`src/templates.ts`). -/
structure Template where
  filename : String
  content : String
deriving DecidableEq, Repr

/-- Canned file body of the `kanban` entry of `TEMPLATES` (`src/templates.ts`). -/
def kanbanTemplateContent : String :=
  "import React, \x7b useState, useMemo \x7d from 'react';\nimport \x7b\n  DndContext,\n  DragOverlay,\n  PointerSensor,\n  useSensor,\n  useSensors,\n  closestCorners,\n  DragStartEvent,\n  DragOverEvent,\n  DragEndEvent,\n  defaultDropAnimationSideEffects,\n\x7d from '@dnd-kit/core';\nimport \x7b\n  SortableContext,\n  arrayMove,\n  verticalListSortingStrategy,\n  horizontalListSortingStrategy,\n  useSortable,\n\x7d from '@dnd-kit/sortable';\nimport \x7b CSS \x7d from '@dnd-kit/utilities';\nimport \x7b Plus, Trash2, GripVertical, Maximize2 \x7d from 'lucide-react';\nimport \x7b createPortal \x7d from 'react-dom';\n\n// --- Types ---\nexport type Id = string | number;\n\nexport type Column = \x7b\n  id: Id;\n  title: string;\n\x7d;\n\nexport type Task = \x7b\n  id: Id;\n  columnId: Id;\n  content: string;\n  priority: 'low' | 'medium' | 'high';\n\x7d;\n\n// --- Initial Data ---\nconst defaultCols: Column[] = [\n  \x7b id: 'todo', title: 'To Do' \x7d,\n  \x7b id: 'doing', title: 'In Progress' \x7d,\n  \x7b id: 'done', title: 'Done' \x7d,\n];\n\nconst initialTasks: Task[] = [\n  \x7b id: '1', columnId: 'todo', content: 'Design system architecture', priority: 'high' \x7d,\n  \x7b id: '2', columnId: 'todo', content: 'Research dnd-kit implementation', priority: 'medium' \x7d,\n  \x7b id: '3', columnId: 'doing', content: 'Initial project setup', priority: 'high' \x7d,\n];\n\n// --- Resize Handle Component ---\nconst ResizeHandle = (\x7b onResize \x7d: \x7b onResize: (delta: number) => void \x7d) => \x7b\n  const [isDragging, setIsDragging] = useState(false);\n\n  const onMouseDown = (e: React.MouseEvent) => \x7b\n    e.preventDefault();\n    e.stopPropagation();\n    setIsDragging(true);\n    const startX = e.clientX;\n    const handleMouseMove = (moveEvent: MouseEvent) => \x7b\n      onResize(moveEvent.clientX - startX);\n    \x7d;\n    const handleMouseUp = () => \x7b\n      setIsDragging(false);\n      window.removeEventListener('mousemove', handleMouseMove);\n      window.removeEventListener('mouseup', handleMouseUp);\n    \x7d;\n    window.addEventListener('mousemove', handleMouseMove);\n    window.addEventListener('mouseup', handleMouseUp);\n  \x7d;\n\n  return (\n    <div \n      onMouseDown=\x7bonMouseDown\x7d\n      className=\x7b`absolute top-0 -right-1 w-2 h-full cursor-col-resize z-20 group transition-all $\x7bisDragging ? 'bg-blue-500/10' : ''\x7d`\x7d\n    >\n      <div className=\x7b`absolute inset-y-0 left-1/2 -translate-x-1/2 w-0.5 transition-all duration-300 $\x7b\n        isDragging \n          ? 'bg-blue-500 shadow-[0_0_12px_rgba(59,130,246,0.8)]' \n          : 'bg-slate-800 group-hover:bg-blue-400 group-hover:shadow-[0_0_8px_rgba(59,130,246,0.4)]'\n      \x7d`\x7d />\n      \n      \x7b/* Visual Dot in the middle */\x7d\n      <div className=\x7b`absolute top-1/2 left-1/2 -translate-x-1/2 -translate-y-1/2 w-1.5 h-6 rounded-full transition-all duration-300 $\x7b\n        isDragging \n          ? 'bg-blue-500' \n          : 'bg-slate-700 opacity-0 group-hover:opacity-100 group-hover:bg-blue-400'\n      \x7d`\x7d />\n    </div>\n  );\n\x7d;\n\n// --- Task Card Component ---\nconst TaskCard = (\x7b task, isOverlay = false \x7d: \x7b task: Task; isOverlay?: boolean \x7d) => \x7b\n  const \x7b\n    setNodeRef,\n    attributes,\n    listeners,\n    transform,\n    transition,\n    isDragging,\n  \x7d = useSortable(\x7b\n    id: task.id,\n    data: \x7b type: 'Task', task \x7d,\n    disabled: isOverlay,\n  \x7d);\n\n  const style = \x7b\n    transition,\n    transform: CSS.Translate.toString(transform),\n  \x7d;\n\n  /**\n   * REFINED: DragOverlay Styling\n   * When isOverlay is true, we apply a deep shadow, a vibrant blue border,\n   * a slight rotation, and a scale effect to make the item pop.\n   */\n  const overlayClasses = isOverlay \n    ? \"shadow-[0_25px_60px_-15px_rgba(0,0,0,0.7)] scale-[1.05] border-blue-500 ring-4 ring-blue-500/20 cursor-grabbing rotate-[2.5deg] bg-slate-800 shadow-blue-500/10 z-[1000]\" \n    : \"cursor-grab bg-slate-800 border-transparent shadow-lg\";\n\n  if (isDragging) \x7b\n    return (\n      <div\n        ref=\x7bsetNodeRef\x7d\n        style=\x7bstyle\x7d\n        className=\"opacity-20 bg-slate-700 h-[100px] min-h-[100px] rounded-xl border-2 border-dashed border-slate-600\"\n      />\n    );\n  \x7d\n\n  return (\n    <div\n      ref=\x7bsetNodeRef\x7d\n      style=\x7bstyle\x7d\n      \x7b...attributes\x7d\n      \x7b...listeners\x7d\n      className=\x7b`p-4 h-[100px] min-h-[100px] flex flex-col justify-between text-left rounded-xl transition-all group border-2 relative $\x7boverlayClasses\x7d`\x7d\n    >\n      <p className=\"w-full overflow-hidden text-slate-200 text-sm font-medium line-clamp-3\">\n        \x7btask.content\x7d\n      </p>\n      <div className=\"flex items-center justify-between mt-auto\">\n        <div className=\x7b`text-[9px] px-2 py-0.5 rounded uppercase font-bold tracking-wider\n          $\x7btask.priority === 'high' ? 'bg-red-500/20 text-red-500 border border-red-500/30' : \n            task.priority === 'medium' ? 'bg-yellow-500/20 text-yellow-500 border border-yellow-500/30' : \n            'bg-green-500/20 text-green-500 border border-green-500/30'\x7d`\x7d>\n          \x7btask.priority\x7d\n        </div>\n        <div className=\"flex items-center gap-1\">\n            <GripVertical className=\"w-3 h-3 text-slate-600 group-hover:text-slate-400\" />\n        </div>\n      </div>\n    </div>\n  );\n\x7d;\n\n// --- Column Container Component ---\nconst ColumnContainer = (\x7b column, tasks, width, onResize \x7d: \x7b \n  column: Column; \n  tasks: Task[]; \n  width: number;\n  onResize: (delta: number) => void;\n\x7d) => \x7b\n  const \x7b setNodeRef, attributes, listeners, transform, transition, isDragging \x7d = useSortable(\x7b\n    id: column.id,\n    data: \x7b type: 'Column', column \x7d,\n  \x7d);\n\n  const style = \x7b \n    transition, \n    transform: CSS.Translate.toString(transform),\n    width: `$\x7bwidth\x7dpx`\n  \x7d;\n\n  return (\n    <div\n      ref=\x7bsetNodeRef\x7d\n      style=\x7bstyle\x7d\n      className=\"flex h-[calc(100vh-180px)] flex-col rounded-2xl bg-slate-900/40 backdrop-blur-md border border-slate-800 shadow-xl relative shrink-0\"\n    >\n      <div\n        \x7b...attributes\x7d\n        \x7b...listeners\x7d\n        className=\"flex items-center justify-between p-4 font-bold border-b border-slate-800 cursor-grab bg-slate-900/60 rounded-t-2xl\"\n      >\n        <div className=\"flex gap-3 items-center text-slate-100\">\n          <span className=\"bg-slate-800 text-slate-400 px-2.5 py-0.5 rounded-full text-xs font-mono border border-slate-700\">\x7btasks.length\x7d</span>\n          <span className=\"truncate tracking-tight font-extrabold\">\x7bcolumn.title\x7d</span>\n        </div>\n        <button className=\"text-slate-500 hover:text-red-400 transition-colors p-1.5 hover:bg-red-400/10 rounded-lg\">\n          <Trash2 size=\x7b16\x7d />\n        </button>\n      </div>\n\n      <div className=\"flex flex-grow flex-col gap-4 p-4 overflow-y-auto custom-scrollbar\">\n        <SortableContext items=\x7btasks.map((t) => t.id)\x7d strategy=\x7bverticalListSortingStrategy\x7d>\n          \x7btasks.map((task) => (\n            <TaskCard key=\x7btask.id\x7d task=\x7btask\x7d />\n          ))\x7d\n        </SortableContext>\n      </div>\n\n      <button className=\"flex items-center justify-center gap-2 m-4 p-3 hover:bg-slate-800 text-slate-400 hover:text-slate-100 border border-slate-800 rounded-xl font-bold text-xs uppercase tracking-widest transition-all\">\n        <Plus size=\x7b16\x7d /> Add Task\n      </button>\n\n      <ResizeHandle onResize=\x7bonResize\x7d />\n    </div>\n  );\n\x7d;\n\nexport default function KanbanBoard() \x7b\n  const [columns, setColumns] = useState<Column[]>(defaultCols);\n  const [tasks, setTasks] = useState<Task[]>(initialTasks);\n  const [activeTask, setActiveTask] = useState<Task | null>(null);\n  const [columnWidths, setColumnWidths] = useState<Record<Id, number>>(\x7b\n    'todo': 320,\n    'doing': 320,\n    'done': 320\n  \x7d);\n\n  const sensors = useSensors(\n    useSensor(PointerSensor, \x7b\n      activationConstraint: \x7b distance: 5 \x7d,\n    \x7d)\n  );\n\n  const onDragStart = (event: DragStartEvent) => \x7b\n    if (event.active.data.current?.type === 'Task') \x7b\n      setActiveTask(event.active.data.current.task);\n    \x7d\n  \x7d;\n\n  const onDragOver = (event: DragOverEvent) => \x7b\n    const \x7b active, over \x7d = event;\n    if (!over) return;\n\n    const activeId = active.id;\n    const overId = over.id;\n\n    if (activeId === overId) return;\n\n    const isActiveATask = active.data.current?.type === 'Task';\n    const isOverATask = over.data.current?.type === 'Task';\n    const isOverAColumn = over.data.current?.type === 'Column';\n\n    if (isActiveATask && isOverATask) \x7b\n      setTasks((tasks) => \x7b\n        const activeIndex = tasks.findIndex((t) => t.id === activeId);\n        const overIndex = tasks.findIndex((t) => t.id === overId);\n        \n        if (tasks[activeIndex].columnId !== tasks[overIndex].columnId) \x7b\n          const newTasks = [...tasks];\n          newTasks[activeIndex] = \x7b ...newTasks[activeIndex], columnId: tasks[overIndex].columnId \x7d;\n          return arrayMove(newTasks, activeIndex, overIndex);\n        \x7d\n\n        return arrayMove(tasks, activeIndex, overIndex);\n      \x7d);\n    \x7d\n\n    if (isActiveATask && isOverAColumn) \x7b\n      setTasks((tasks) => \x7b\n        const activeIndex = tasks.findIndex((t) => t.id === activeId);\n        const newTasks = [...tasks];\n        newTasks[activeIndex] = \x7b ...newTasks[activeIndex], columnId: overId \x7d;\n        return arrayMove(newTasks, activeIndex, activeIndex);\n      \x7d);\n    \x7d\n  \x7d;\n\n  const onDragEnd = (event: DragEndEvent) => \x7b\n    setActiveTask(null);\n    const \x7b active, over \x7d = event;\n    if (!over) return;\n\n    if (active.id === over.id) return;\n\n    const isActiveAColumn = active.data.current?.type === 'Column';\n    if (!isActiveAColumn) return;\n\n    setColumns((columns) => \x7b\n      const activeColumnIndex = columns.findIndex((col) => col.id === active.id);\n      const overColumnIndex = columns.findIndex((col) => col.id === over.id);\n      return arrayMove(columns, activeColumnIndex, overColumnIndex);\n    \x7d);\n  \x7d;\n\n  const handleResize = (id: Id, delta: number) => \x7b\n    setColumnWidths(prev => (\x7b\n      ...prev,\n      [id]: Math.min(Math.max(prev[id] + delta, 200), 600)\n    \x7d));\n  \x7d;\n\n  return (\n    <div className=\"flex h-screen w-full flex-col bg-slate-950 p-6 md:p-10 text-slate-200 overflow-hidden\">\n      <header className=\"mb-12 flex items-center justify-between shrink-0\">\n        <div>\n          <h1 className=\"text-4xl md:text-5xl font-black bg-gradient-to-r from-blue-400 via-indigo-400 to-emerald-400 bg-clip-text text-transparent tracking-tighter\">\n            Symbiotic Boards\n          </h1>\n          <p className=\"text-slate-500 text-sm md:text-base mt-2 font-medium\">Agile workflows reimagined for AI-driven development.</p>\n        </div>\n        <button className=\"px-6 py-3 bg-indigo-600 hover:bg-indigo-700 text-white rounded-2xl font-black flex items-center gap-3 transition-all shadow-xl shadow-indigo-600/20 active:scale-95 text-sm uppercase tracking-widest\">\n          <Plus size=\x7b20\x7d /> New Column\n        </button>\n      </header>\n\n      <div className=\"flex-1 overflow-x-auto pb-10 scrollbar-thin scrollbar-thumb-slate-800 scrollbar-track-transparent\">\n        <DndContext\n          sensors=\x7bsensors\x7d\n          collisionDetection=\x7bclosestCorners\x7d\n          onDragStart=\x7bonDragStart\x7d\n          onDragOver=\x7bonDragOver\x7d\n          onDragEnd=\x7bonDragEnd\x7d\n        >\n          <div className=\"flex gap-8 h-full min-w-max px-2\">\n            <SortableContext items=\x7bcolumns.map((col) => col.id)\x7d strategy=\x7bhorizontalListSortingStrategy\x7d>\n              \x7bcolumns.map((col) => (\n                <ColumnContainer\n                  key=\x7bcol.id\x7d\n                  column=\x7bcol\x7d\n                  width=\x7bcolumnWidths[col.id] || 320\x7d\n                  onResize=\x7b(delta) => handleResize(col.id, delta)\x7d\n                  tasks=\x7btasks.filter((t) => t.columnId === col.id)\x7d\n                />\n              ))\x7d\n            </SortableContext>\n          </div>\n\n          \x7btypeof document !== 'undefined' &&\n            createPortal(\n              <DragOverlay dropAnimation=\x7b\x7b\n                sideEffects: defaultDropAnimationSideEffects(\x7b\n                  styles: \x7b\n                    active: \x7b\n                      opacity: '0.4',\n                    \x7d,\n                  \x7d,\n                \x7d),\n              \x7d\x7d>\n                \x7bactiveTask && <TaskCard task=\x7bactiveTask\x7d isOverlay />\x7d\n              </DragOverlay>,\n              document.body\n            )\x7d\n        </DndContext>\n      </div>\n    </div>\n  );\n\x7d"

/-- Canned file body of the `calculator` entry of `TEMPLATES` (`src/templates.ts`). -/
def calculatorTemplateContent : String :=
  "import React, \x7b useState \x7d from 'react';\nimport \x7b Delete, Equal \x7d from 'lucide-react';\n\nexport default function Calculator() \x7b\n  const [display, setDisplay] = useState('0');\n  const [prevValue, setPrevValue] = useState<number | null>(null);\n  const [operator, setOperator] = useState<string | null>(null);\n  const [newNumber, setNewNumber] = useState(true);\n\n  const handleNumber = (num: string) => \x7b\n    if (newNumber) \x7b\n      setDisplay(num);\n      setNewNumber(false);\n    \x7d else \x7b\n      setDisplay(display === '0' ? num : display + num);\n    \x7d\n  \x7d;\n\n  const handleOperator = (op: string) => \x7b\n    const current = parseFloat(display);\n    \n    if (prevValue === null) \x7b\n      setPrevValue(current);\n    \x7d else if (operator) \x7b\n      const result = calculate(prevValue, current, operator);\n      setPrevValue(result);\n      setDisplay(String(result));\n    \x7d\n    \n    setOperator(op);\n    setNewNumber(true);\n  \x7d;\n\n  const calculate = (a: number, b: number, op: string) => \x7b\n    switch(op) \x7b\n      case '+': return a + b;\n      case '-': return a - b;\n      case '\xd7': return a * b;\n      case '\xf7': return a / b;\n      default: return b;\n    \x7d\n  \x7d;\n\n  const handleEqual = () => \x7b\n    if (operator && prevValue !== null) \x7b\n      const current = parseFloat(display);\n      const result = calculate(prevValue, current, operator);\n      setDisplay(String(result));\n      setPrevValue(null);\n      setOperator(null);\n      setNewNumber(true);\n    \x7d\n  \x7d;\n\n  const clear = () => \x7b\n    setDisplay('0');\n    setPrevValue(null);\n    setOperator(null);\n    setNewNumber(true);\n  \x7d;\n\n  const Button = (\x7b children, onClick, variant = 'default', className = '' \x7d: any) => (\n    <button\n      onClick=\x7bonClick\x7d\n      className=\x7b`\n        h-16 rounded-2xl text-xl font-bold transition-all active:scale-95 flex items-center justify-center shadow-sm\n        $\x7bvariant === 'primary' ? 'bg-indigo-600 text-white hover:bg-indigo-700' : \n          variant === 'secondary' ? 'bg-gray-200 text-gray-900 hover:bg-gray-300' :\n          variant === 'accent' ? 'bg-orange-500 text-white hover:bg-orange-600' :\n          'bg-gray-50 text-gray-900 hover:bg-gray-100 border border-gray-200'\x7d\n        $\x7bclassName\x7d\n      `\x7d\n    >\n      \x7bchildren\x7d\n    </button>\n  );\n\n  return (\n    <div className=\"min-h-screen flex items-center justify-center bg-gradient-to-br from-slate-100 to-slate-200 p-4\">\n      <div className=\"w-full max-w-sm bg-white p-6 rounded-[2rem] shadow-2xl border border-white/50\">\n        <div className=\"mb-6 px-4 py-8 bg-gray-900 rounded-3xl text-right shadow-inner\">\n          <span className=\"text-gray-400 text-sm h-6 block mb-1\">\n            \x7bprevValue\x7d \x7boperator\x7d\n          </span>\n          <span className=\"text-4xl text-white font-mono tracking-wider overflow-x-auto block\">\n            \x7bdisplay\x7d\n          </span>\n        </div>\n\n        <div className=\"grid grid-cols-4 gap-3\">\n          <Button onClick=\x7bclear\x7d variant=\"secondary\" className=\"col-span-2 text-red-500\">AC</Button>\n          <Button onClick=\x7b() => handleNumber(display.substring(0, display.length -1))\x7d variant=\"secondary\"><Delete className=\"w-5 h-5\" /></Button>\n          <Button onClick=\x7b() => handleOperator('\xf7')\x7d variant=\"accent\">\xf7</Button>\n\n          <Button onClick=\x7b() => handleNumber('7')\x7d>7</Button>\n          <Button onClick=\x7b() => handleNumber('8')\x7d>8</Button>\n          <Button onClick=\x7b() => handleNumber('9')\x7d>9</Button>\n          <Button onClick=\x7b() => handleOperator('\xd7')\x7d variant=\"accent\">\xd7</Button>\n\n          <Button onClick=\x7b() => handleNumber('4')\x7d>4</Button>\n          <Button onClick=\x7b() => handleNumber('5')\x7d>5</Button>\n          <Button onClick=\x7b() => handleNumber('6')\x7d>6</Button>\n          <Button onClick=\x7b() => handleOperator('-')\x7d variant=\"accent\">-</Button>\n\n          <Button onClick=\x7b() => handleNumber('1')\x7d>1</Button>\n          <Button onClick=\x7b() => handleNumber('2')\x7d>2</Button>\n          <Button onClick=\x7b() => handleNumber('3')\x7d>3</Button>\n          <Button onClick=\x7b() => handleOperator('+')\x7d variant=\"accent\">+</Button>\n\n          <Button onClick=\x7b() => handleNumber('0')\x7d className=\"col-span-2\">0</Button>\n          <Button onClick=\x7b() => handleNumber('.')\x7d>.</Button>\n          <Button onClick=\x7bhandleEqual\x7d variant=\"primary\"><Equal className=\"w-6 h-6\" /></Button>\n        </div>\n      </div>\n    </div>\n  );\n\x7d"

/-- Canned file body of the `todo` entry of `TEMPLATES` (`src/templates.ts`). -/
def todoTemplateContent : String :=
  "import React, \x7b useState \x7d from 'react';\nimport \x7b Plus, Check, Trash2, Calendar, Layout \x7d from 'lucide-react';\n\nexport default function TodoApp() \x7b\n  const [tasks, setTasks] = useState([\n    \x7b id: 1, text: 'Review PRs from AI Team', completed: true, category: 'Work' \x7d,\n    \x7b id: 2, text: 'Update system documentation', completed: false, category: 'Docs' \x7d,\n    \x7b id: 3, text: 'Plan next sprint', completed: false, category: 'Planning' \x7d,\n  ]);\n  const [input, setInput] = useState('');\n\n  const addTask = (e: React.FormEvent) => \x7b\n    e.preventDefault();\n    if (!input.trim()) return;\n    setTasks([...tasks, \x7b \n      id: Date.now(), \n      text: input, \n      completed: false, \n      category: 'General' \n    \x7d]);\n    setInput('');\n  \x7d;\n\n  const toggleTask = (id: number) => \x7b\n    setTasks(tasks.map(t => t.id === id ? \x7b ...t, completed: !t.completed \x7d : t));\n  \x7d;\n\n  const deleteTask = (id: number) => \x7b\n    setTasks(tasks.filter(t => t.id !== id));\n  \x7d;\n\n  const activeCount = tasks.filter(t => !t.completed).length;\n\n  return (\n    <div className=\"min-h-screen bg-[#F3F4F6] flex items-center justify-center p-4\">\n      <div className=\"w-full max-w-lg bg-white rounded-3xl shadow-xl overflow-hidden flex flex-col max-h-[80vh]\">\n        \n        \x7b/* Header */\x7d\n        <div className=\"bg-indigo-600 p-8 text-white relative overflow-hidden\">\n          <div className=\"absolute top-0 right-0 p-4 opacity-10\">\n            <Layout className=\"w-32 h-32\" />\n          </div>\n          <h1 className=\"text-3xl font-bold relative z-10\">My Tasks</h1>\n          <p className=\"text-indigo-100 mt-2 relative z-10 flex items-center gap-2\">\n            <Calendar className=\"w-4 h-4\" />\n            \x7bnew Date().toLocaleDateString('en-US', \x7b weekday: 'long', month: 'long', day: 'numeric' \x7d)\x7d\n          </p>\n          <div className=\"mt-6 flex items-center gap-2 text-sm font-medium bg-white/10 w-fit px-3 py-1 rounded-full backdrop-blur-md\">\n            <div className=\"w-2 h-2 bg-green-400 rounded-full animate-pulse\" />\n            \x7bactiveCount\x7d tasks remaining\n          </div>\n        </div>\n\n        \x7b/* List */\x7d\n        <div className=\"flex-1 overflow-y-auto p-6 space-y-3\">\n          \x7btasks.length === 0 ? (\n             <div className=\"text-center py-10 text-gray-400\">\n               <p>All caught up! 🎉</p>\n             </div>\n          ) : tasks.map(task => (\n            <div \n              key=\x7btask.id\x7d\n              className=\x7b`group flex items-center gap-3 p-4 rounded-2xl border transition-all duration-200 hover:shadow-md $\x7btask.completed ? 'bg-gray-50 border-gray-100' : 'bg-white border-gray-100'\x7d`\x7d\n            >\n              <button \n                onClick=\x7b() => toggleTask(task.id)\x7d\n                className=\x7b`w-6 h-6 rounded-full border-2 flex items-center justify-center transition-colors $\x7btask.completed ? 'bg-indigo-500 border-indigo-500' : 'border-gray-300 hover:border-indigo-500'\x7d`\x7d\n              >\n                \x7btask.completed && <Check className=\"w-3.5 h-3.5 text-white\" />\x7d\n              </button>\n              \n              <div className=\"flex-1 min-w-0\">\n                <p className=\x7b`text-sm font-medium truncate transition-all $\x7btask.completed ? 'text-gray-400 line-through' : 'text-gray-700'\x7d`\x7d>\n                  \x7btask.text\x7d\n                </p>\n                <span className=\"text-[10px] text-gray-400 uppercase tracking-wider\">\x7btask.category\x7d</span>\n              </div>\n\n              <button \n                onClick=\x7b() => deleteTask(task.id)\x7d\n                className=\"opacity-0 group-hover:opacity-100 p-2 text-gray-400 hover:text-red-500 transition-all\"\n              >\n                <Trash2 className=\"w-4 h-4\" />\n              </button>\n            </div>\n          ))\x7d\n        </div>\n\n        \x7b/* Input */\x7d\n        <form onSubmit=\x7baddTask\x7d className=\"p-4 bg-gray-50 border-t border-gray-100\">\n          <div className=\"relative\">\n            <input\n              type=\"text\"\n              value=\x7binput\x7d\n              onChange=\x7b(e) => setInput(e.target.value)\x7d\n              placeholder=\"Add a new task...\"\n              className=\"w-full pl-5 pr-12 py-4 rounded-xl border border-gray-200 focus:ring-2 focus:ring-indigo-500 focus:outline-none shadow-sm\"\n            />\n            <button \n              type=\"submit\"\n              disabled=\x7b!input.trim()\x7d\n              className=\"absolute right-2 top-2 bottom-2 aspect-square bg-indigo-600 hover:bg-indigo-700 disabled:opacity-50 disabled:hover:bg-indigo-600 text-white rounded-lg flex items-center justify-center transition-colors\"\n            >\n              <Plus className=\"w-5 h-5\" />\n            </button>\n          </div>\n        </form>\n      </div>\n    </div>\n  );\n\x7d"

/-- Canned file body of the `login` entry of `TEMPLATES` (`src/templates.ts`). -/
def loginTemplateContent : String :=
  "import React, \x7b useState \x7d from 'react';\nimport \x7b User, Lock, ArrowRight \x7d from 'lucide-react';\n\nexport default function Login() \x7b\n  const [email, setEmail] = useState('');\n  const [password, setPassword] = useState('');\n  const [isLoading, setIsLoading] = useState(false);\n\n  const handleLogin = (e: React.FormEvent) => \x7b\n    e.preventDefault();\n    setIsLoading(true);\n    // Simulate API call\n    setTimeout(() => setIsLoading(false), 1500);\n  \x7d;\n\n  return (\n    <div className=\"min-h-screen flex items-center justify-center bg-gray-50 p-4\">\n      <div className=\"max-w-md w-full bg-white rounded-2xl shadow-xl overflow-hidden border border-gray-100\">\n        <div className=\"bg-indigo-600 p-8 text-center\">\n          <div className=\"w-16 h-16 bg-white/20 rounded-full flex items-center justify-center mx-auto mb-4 backdrop-blur-sm\">\n            <User className=\"w-8 h-8 text-white\" />\n          </div>\n          <h2 className=\"text-2xl font-bold text-white\">Welcome Back</h2>\n          <p className=\"text-indigo-200 mt-2\">Sign in to your account</p>\n        </div>\n\n        <form onSubmit=\x7bhandleLogin\x7d className=\"p-8 space-y-6\">\n          <div className=\"space-y-2\">\n            <label className=\"text-sm font-medium text-gray-700\">Email Address</label>\n            <div className=\"relative\">\n              <User className=\"absolute left-3 top-3 w-5 h-5 text-gray-400\" />\n              <input\n                type=\"email\"\n                value=\x7bemail\x7d\n                onChange=\x7b(e) => setEmail(e.target.value)\x7d\n                className=\"w-full pl-10 pr-4 py-3 border border-gray-200 rounded-xl focus:ring-2 focus:ring-indigo-500 focus:border-transparent outline-none transition-all\"\n                placeholder=\"you@company.com\"\n                required\n              />\n            </div>\n          </div>\n\n          <div className=\"space-y-2\">\n            <label className=\"text-sm font-medium text-gray-700\">Password</label>\n            <div className=\"relative\">\n              <Lock className=\"absolute left-3 top-3 w-5 h-5 text-gray-400\" />\n              <input\n                type=\"password\"\n                value=\x7bpassword\x7d\n                onChange=\x7b(e) => setPassword(e.target.value)\x7d\n                className=\"w-full pl-10 pr-4 py-3 border border-gray-200 rounded-xl focus:ring-2 focus:ring-indigo-500 focus:border-transparent outline-none transition-all\"\n                placeholder=\"\u2022\u2022\u2022\u2022\u2022\u2022\u2022\u2022\"\n                required\n              />\n            </div>\n          </div>\n\n          <div className=\"flex items-center justify-between text-sm\">\n            <label className=\"flex items-center gap-2 cursor-pointer\">\n              <input type=\"checkbox\" className=\"rounded text-indigo-600 focus:ring-indigo-500\" />\n              <span className=\"text-gray-600\">Remember me</span>\n            </label>\n            <a href=\"#\" className=\"text-indigo-600 hover:text-indigo-700 font-medium\">Forgot password?</a>\n          </div>\n\n          <button\n            type=\"submit\"\n            disabled=\x7bisLoading\x7d\n            className=\"w-full bg-gray-900 text-white py-3.5 rounded-xl font-semibold hover:bg-black transition-all transform active:scale-[0.98] flex items-center justify-center gap-2 shadow-lg disabled:opacity-70 disabled:cursor-not-allowed\"\n          >\n            \x7bisLoading ? (\n              <span className=\"animate-pulse\">Signing in...</span>\n            ) : (\n              <>\n                Sign In <ArrowRight className=\"w-4 h-4\" />\n              </>\n            )\x7d\n          </button>\n        </form>\n        \n        <div className=\"bg-gray-50 p-4 text-center border-t border-gray-100\">\n          <p className=\"text-sm text-gray-500\">\n            Don't have an account? <a href=\"#\" className=\"text-indigo-600 font-semibold hover:underline\">Create one</a>\n          </p>\n        </div>\n      </div>\n    </div>\n  );\n\x7d"

/-- Embedding of the `TEMPLATES` table of `src/templates.ts` at the four
keyword-detectable keys. -/
def TEMPLATES : TemplateKey → Template
  | .kanban => ⟨"KanbanBoard.tsx", kanbanTemplateContent⟩
  | .calculator => ⟨"Calculator.tsx", calculatorTemplateContent⟩
  | .todo => ⟨"TodoList.tsx", todoTemplateContent⟩
  | .login => ⟨"Login.tsx", loginTemplateContent⟩

/-- Embedding of `detectTemplateKey` (`src/App.tsx` lines 85-92): scan the
lowercased request for fixed keywords in priority order kanban, calculator,
todo, login. -/
def detectTemplateKey (request : String) : Option TemplateKey :=
  let lowerRequest := jsToLower request
  if containsSub lowerRequest "kanban" then some .kanban
  else if containsSub lowerRequest "calculator" then some .calculator
  else if containsSub lowerRequest "todo" then some .todo
  else if containsSub lowerRequest "login" then some .login
  else none

/-- Characters removed by the control-character regex of `sanitizeForPrompt`
(`src/App.tsx` line 81): x00-x08, x0B, x0C, x0E-x1F and x7F. -/
def isStrippedControl (c : Char) : Bool :=
  c.toNat ≤ 8 || c.toNat = 11 || c.toNat = 12 ||
  (14 ≤ c.toNat && c.toNat ≤ 31) || c.toNat = 127

/-- Embedding of `sanitizeForPrompt` at its default cap of 6000 characters
(`src/App.tsx` lines 79-83): strip control characters, then truncate. -/
def sanitizeForPrompt (value : String) : String :=
  if value = "" then ""
  else ⟨(value.data.filter (fun c => !isStrippedControl c)).take 6000⟩

/-- Fields of a Gemini error payload as `formatAgentError` reads them
(`src/App.tsx` lines 94-97): `none` models an absent or non-string field. -/
structure InnerError where
  code : Option Int
  status : Option String
  message : Option String
deriving DecidableEq, Repr

/-- Values thrown by a stage's generation call, as `formatAgentError`
distinguishes them (`src/App.tsx` lines 99-126): falsy values, `Error`
instances, plain strings, structured payloads (the source reads the same
`code`/`status`/`message` fields whether the payload sits at the top level
or nested under an `error` key, so one constructor covers both shapes),
and objects whose nested candidate is not an object. -/

inductive AgentError
  | nullish
  | jsError (message : String)
  | strErr (s : String)
  | nonObjectPayload
  | payload (inner : InnerError)
deriving DecidableEq, Repr

/-- Remediation text returned for a leaked/revoked key. -/
def leakedKeyText : String :=
  "Gemini API key was reported as leaked. Generate a new API key in Google AI Studio and update your .env.local file."

/-- Fallback text for a permission-denied error without a message. -/
def permissionDeniedFallbackText : String :=
  "Permission denied. Check your Gemini API key configuration."

/-- Embedding of `formatAgentError` (`src/App.tsx` lines 99-126). -/
def formatAgentError : AgentError → String
  | .nullish => ""
  | .jsError m => m
  | .strErr s => s
  | .nonObjectPayload => ""
  | .payload inner =>
      let message := match inner.message with | some m => m | none => ""
      let normalized := jsToLower message
      let hasLeakedMessage := containsSub normalized "reported as leaked"
      let mentionsApiKey := containsSub normalized "api key"
      let isPermissionDeniedStatus :=
        decide (inner.code = some 403) && decide (inner.status = some "PERMISSION_DENIED")
      let isLeakedKey := hasLeakedMessage || (isPermissionDeniedStatus && mentionsApiKey)
      let isPermissionDenied :=
        isPermissionDeniedStatus || decide (inner.code = some 403) ||
          decide (inner.status = some "PERMISSION_DENIED")
      if isLeakedKey then leakedKeyText
      else if isPermissionDenied then jsOr message permissionDeniedFallbackText
      else message

/-- System-message text built by the catch handler of `handleSendMessage`
(`src/App.tsx` lines 807-814). -/
def agentFailureMessage (e : AgentError) : String :=
  let detail := formatAgentError e
  let errorMessage :=
    if detail = "" then "Error connecting to agents. Mission aborted."
    else "Error connecting to agents: " ++ detail
  errorMessage ++ " Please verify your Gemini API key and network access."

/-- Agent roles of the pipeline (designer, architect, developer, critic). -/
inductive Role
  | designer
  | architect
  | developer
  | critic
deriving DecidableEq, Repr

/-- Sender tag of a `ChatMessage`. -/
inductive Sender
  | user
  | agent
  | system
deriving DecidableEq, Repr

/-- Status of an `AgentTask`. -/
inductive TaskStatus
  | pending
  | active
  | completed
  | failed
deriving DecidableEq, Repr

/-- Target selected for a run (`TargetAgent` of `types.ts` as used by
`App.tsx`). -/
inductive TargetAgent
  | team
  | architect
  | developer
  | designer
deriving DecidableEq, Repr

/-- Embedding of `ChatMessage`: the random `generateId` string is modelled
by a fresh natural-number counter (only freshness matters); the wall-clock
timestamp is not modelled. `groundingUrls` is a list of title/uri pairs,
with `[]` standing for the absent field. -/
structure ChatMessage where
  id : Nat
  sender : Sender
  agentRole : Option Role
  text : String
  attachmentImage : Option String
  groundingUrls : List (String × String)
deriving DecidableEq, Repr

/-- Embedding of `AgentTask`. -/
structure AgentTask where
  id : Nat
  title : String
  status : TaskStatus
  assignedTo : Role
deriving DecidableEq, Repr

/-- Embedding of `FileNode`, split along the `type` discriminant on which
every code path branches. -/
inductive FileNode
  | file (name : String) (language : Option String) (content : Option String) (isNew : Bool)
  | folder (name : String) (isOpen : Bool) (children : List FileNode)

/-- Name of a file-tree node. -/
def FileNode.name : FileNode → String
  | .file n _ _ _ => n
  | .folder n _ _ => n

/-- Embedding of `AgentOptions` (`types.ts`); `image` is the optional
base64 attachment. -/
structure AgentOptions where
  useSearch : Bool
  useThinking : Bool
  image : Option String
deriving DecidableEq, Repr

/-- Design context produced by the designer stage and consumed by the
developer and critic stages. -/
structure Design where
  tokens : String
  library : String
  brief : String
deriving DecidableEq, Repr

/-- Embedding of the single-slot `pendingDeveloperContext` value
(`src/App.tsx` line 344). -/
structure PendingHandoff where
  userRequest : String
  architectPlan : String
  options : AgentOptions
  design : Design
deriving DecidableEq, Repr

/-- Embedding of the React state touched by the Agent Stage Runner.  Pure
UI state (tab selection, pane sizes, theme, auth, editor history) and the
preview documents — which feed only prompt text, not modelled — are
omitted. `nextId` is the fresh-id counter standing in for `generateId`. -/
structure AppState where
  messages : List ChatMessage
  tasks : List AgentTask
  files : List FileNode
  activeFile : Option FileNode
  designTokens : String
  designLibrary : String
  designBrief : String
  pendingDeveloperContext : Option PendingHandoff
  designerPauseEnabled : Bool
  isProcessing : Bool
  projectGraph : String
  lastUserRequest : String
  inputValue : String
  nextId : Nat

/-- Parsed developer JSON as the source reads it: each field is the string
value when present and truthy, `""` otherwise (JS `json.content || d`). -/
structure DevJson where
  content : String
  filename : String
  explanation : String
deriving DecidableEq, Repr

/-- Parsed designer JSON as the source reads it: `tokens` is the resolved
token string (the string field itself, or `JSON.stringify` of the object
field — an external primitive); `library`/`brief` are `""` when absent. -/
structure DesignerJson where
  tokens : String
  library : String
  brief : String
deriving DecidableEq, Repr

/-- Outcome of one external generation call: the response text (with `""`
for an absent `response.text`) and grounding citations, or a thrown error. -/
inductive ModelOutcome
  | ok (text : String) (grounding : List (String × String))
  | err (e : AgentError)

/-- External environment of a run: credential presence, the model service
(one outcome per successive call), and the browser's `JSON.parse` applied
to the extracted developer/designer output (`none` models a parse throw). -/
structure Env where
  apiKeyPresent : Bool
  oracle : Nat → ModelOutcome
  parseDev : String → Option DevJson
  parseDesigner : String → Option DesignerJson

/-- Record of one generation request issued to the model service: the
stage's role plus selected prompt inputs (full prompt strings are not
modelled). -/
structure GenRequest where
  role : Role
  args : List (String × String)
deriving DecidableEq, Repr

/-- State threaded through a run: the app state, the number of generation
calls made so far, and the trace of issued requests. -/
structure RunState where
  app : AppState
  calls : Nat
  trace : List GenRequest

/-- Result of a pipeline fragment: a value with the updated state, or a
thrown error with the state at the throw point. -/
inductive StageOut (α : Type)
  | ok (val : α) (s : RunState)
  | thrown (e : AgentError) (s : RunState)

/-- Append a chat message with a fresh id. -/
def pushMsg (s : RunState) (sender : Sender) (role : Option Role) (text : String)
    (image : Option String) (grounding : List (String × String)) : RunState :=
  { s with app := { s.app with
      messages := s.app.messages ++ [⟨s.app.nextId, sender, role, text, image, grounding⟩],
      nextId := s.app.nextId + 1 } }

/-- Create a stage's `AgentTask` in `active` status, returning its id. -/
def pushTask (s : RunState) (title : String) (role : Role) : Nat × RunState :=
  (s.app.nextId,
   { s with app := { s.app with
      tasks := s.app.tasks ++ [⟨s.app.nextId, title, .active, role⟩],
      nextId := s.app.nextId + 1 } })

/-- Mark the task with the given id `completed`
(`setTasks(prev => prev.map(...))`). -/
def completeTask (s : RunState) (taskId : Nat) : RunState :=
  { s with app := { s.app with
      tasks := s.app.tasks.map
        (fun t => if t.id = taskId then { t with status := .completed } else t) } }

/-- Issue one generation request to the model service, consuming the next
oracle outcome and recording the request in the trace. -/
def generate (env : Env) (role : Role) (args : List (String × String))
    (s : RunState) : StageOut (String × List (String × String)) :=
  let s1 := { s with calls := s.calls + 1, trace := s.trace ++ [⟨role, args⟩] }
  match env.oracle s.calls with
  | .ok t g => .ok (t, g) s1
  | .err e => .thrown e s1

/-- Default component library (`DEFAULT_DESIGN_LIBRARY`, `src/App.tsx`
line 228). -/
def DEFAULT_DESIGN_LIBRARY : String := "shadcn/ui"

/-- The literal `"{}"` fallback fed to `cleanJson` when `response.text` is
absent. -/
def emptyObjText : String := ⟨[openBrace, closeBrace]⟩

/-- Placeholder file body substituted on a developer JSON parse failure
(`src/App.tsx` line 611). -/
def devErrorContent : String :=
  "// Extraction Error: Failed to parse code output. Check Console."

/-- Explanatory chat text substituted on a developer JSON parse failure
(`src/App.tsx` line 612). -/
def devErrorExplanation : String :=
  "Developer agent encountered a JSON formatting error. I've attempted to recover, but the code block may be partial."

/-- Modelled from the spec: the missing-credential system message names the
candidate environment variables in `GEMINI_KEY_ENV_ORDER`; `envKeys.ts` is
not among the provided sources, and the exact key list is irrelevant to
every claim. -/
def missingKeyText : String :=
  "Missing Gemini API key. Add GEMINI_API_KEY or API_KEY to your .env.local file."

/-- Replace-by-name insertion into the first top-level `src` folder
(`src/App.tsx` lines 617-627): `none` when no `src` folder exists. -/
def insertIntoSrc (filename : String) (newFile : FileNode) :
    List FileNode → Option (List FileNode)
  | [] => none
  | FileNode.folder nm op ch :: rest =>
      if nm = "src" then
        some (FileNode.folder nm op
          ((ch.filter (fun c => c.name != filename)) ++ [newFile]) :: rest)
      else (insertIntoSrc filename newFile rest).map (FileNode.folder nm op ch :: ·)
  | f :: rest => (insertIntoSrc filename newFile rest).map (f :: ·)

/-- File placement of the developer stage: replace-by-name inside the first
`src` folder when present, else append at the root. -/
def placeGeneratedFile (files : List FileNode) (filename : String)
    (newFile : FileNode) : List FileNode :=
  match insertIntoSrc filename newFile files with
  | some next => next
  | none => files ++ [newFile]

/-- Children of the first top-level `src` folder of a file tree, when one
exists. -/
def rootSrcChildren : List FileNode → Option (List FileNode)
  | [] => none
  | FileNode.folder nm _ ch :: rest =>
      if nm = "src" then some ch else rootSrcChildren rest
  | _ :: rest => rootSrcChildren rest

/-- Overwrite the content of the first top-level file named `theme.json`. -/
def setFirstThemeContent (tokens : String) : List FileNode → List FileNode
  | [] => []
  | FileNode.file nm lang c isNew :: rest =>
      if nm = "theme.json" then FileNode.file nm lang (some tokens) isNew :: rest
      else FileNode.file nm lang c isNew :: setFirstThemeContent tokens rest
  | f :: rest => f :: setFirstThemeContent tokens rest

/-- Designer-stage `theme.json` mirroring (`src/App.tsx` lines 688-698):
overwrite the first node of that name when it is a file, else push a new
file node. -/
def upsertThemeFile (tokens : String) (files : List FileNode) : List FileNode :=
  match files.find? (fun n => n.name == "theme.json") with
  | some (FileNode.file _ _ _ _) => setFirstThemeContent tokens files
  | _ => files ++ [FileNode.file "theme.json" (some "json") (some tokens) false]

/-- Embedding of `runCriticStage` (`src/App.tsx` lines 539-561): create a
`Critic Review` task, issue one generation request, append one critic
message (with a completion fallback for empty text) and complete the task.
The preview-document prompt context is not modelled. -/
def runCriticStage (env : Env) (generatedCode : String) (design : Design)
    (architectPlan userRequest : String) (s : RunState) : StageOut Unit :=
  let p := pushTask s "Critic Review" .critic
  match generate env .critic
      [("request", userRequest), ("plan", architectPlan), ("tokens", design.tokens)] p.2 with
  | .thrown e s2 => .thrown e s2
  | .ok (text, _g) s2 =>
      let s3 := pushMsg s2 .agent (some .critic) (jsOr text "Critic review complete.") none []
      .ok () (completeTask s3 p.1)

/-- Developer generation call plus JSON-extraction/recovery
(`src/App.tsx` lines 577-613): extract with `cleanJson`, parse, and on
parse failure substitute the visible placeholder body and explanation.
Returns `(generatedCode, filename, explanation)`. -/
def developerModelCall (env : Env) (userRequest architectPlan : String)
    (design : Design) (graph : String) (s : RunState) :
    StageOut (String × String × String) :=
  match generate env .developer
      [("plan", architectPlan), ("tokens", design.tokens), ("library", design.library),
       ("brief", design.brief), ("graph", graph), ("request", userRequest)] s with
  | .thrown e s1 => .thrown e s1
  | .ok (text, _g) s1 =>
      let rawJson := cleanJson (jsOr text emptyObjText)
      match env.parseDev rawJson with
      | some json =>
          .ok (jsOr json.content "// Error generating code",
               jsOr json.filename "Component.tsx",
               jsOr json.explanation "Implementation complete.") s1
      | none => .ok (devErrorContent, "Component.tsx", devErrorExplanation) s1

/-- Embedding of `runDeveloperStage` (`src/App.tsx` lines 563-634): create
an `Implementation` task; take the template short-circuit when a template
key matched and neither reasoning nor search is set, else call the model
with JSON recovery; place the produced file (replace-by-name in `src`,
else root), make it active, append one developer message, complete the
task, then run the critic stage. -/
def runDeveloperStage (env : Env) (userRequest architectPlan : String)
    (design : Design) (options : AgentOptions) (templateKey : Option TemplateKey)
    (graph : String) (s : RunState) : StageOut Unit :=
  let p := pushTask s "Implementation" .developer
  let step : StageOut (String × String × String) :=
    match templateKey with
    | some tk =>
        if options.useThinking = false ∧ options.useSearch = false then
          .ok ((TEMPLATES tk).content, (TEMPLATES tk).filename, "Built component.") p.2
        else developerModelCall env userRequest architectPlan design graph p.2
    | none => developerModelCall env userRequest architectPlan design graph p.2
  match step with
  | .thrown e s2 => .thrown e s2
  | .ok (generatedCode, filename, explanation) s2 =>
      let newFile : FileNode := .file filename (some "typescript") (some generatedCode) true
      let s3 := { s2 with app := { s2.app with
                    files := placeGeneratedFile s2.app.files filename newFile,
                    activeFile := some newFile } }
      let s4 := pushMsg s3 .agent (some .developer) explanation none []
      let s5 := completeTask s4 p.1
      runCriticStage env generatedCode design architectPlan userRequest s5

/-- Designer stage of `handleSendMessage` (`src/App.tsx` lines 664-709):
create a `Design System Draft` task, issue one generation request, and on
a successful parse adopt the returned design context, mirror the tokens
into `theme.json` and append one designer message; a parse failure changes
nothing (the inner catch only logs).  The task is completed in both cases.
Returns the resulting local `designContext`. -/
def designerStage (env : Env) (userRequest : String)
    (designContext0 : Design) (s : RunState) : StageOut Design :=
  let p := pushTask s "Design System Draft" .designer
  match generate env .designer [("request", userRequest)] p.2 with
  | .thrown e s2 => .thrown e s2
  | .ok (text, _g) s2 =>
      let rawJson := cleanJson (jsOr text emptyObjText)
      match env.parseDesigner rawJson with
      | some parsed =>
          let tokens := parsed.tokens
          let library := jsOr parsed.library DEFAULT_DESIGN_LIBRARY
          let brief := jsOr parsed.brief "Use consistent spacing and card system."
          let s3 := { s2 with app := { s2.app with
                        designTokens := tokens, designLibrary := library,
                        designBrief := brief,
                        files := upsertThemeFile tokens s2.app.files } }
          let s4 := pushMsg s3 .agent (some .designer)
              ("Library: " ++ library ++ "\nBrief: " ++ brief ++ "\nTokens saved to theme.json")
              none []
          .ok ⟨tokens, library, brief⟩ (completeTask s4 p.1)
      | none => .ok designContext0 (completeTask s2 p.1)

/-- Architect stage of `handleSendMessage` (`src/App.tsx` lines 715-750):
create an `Architecture Planning` task, issue one generation request,
append one architect message carrying the plan and grounding citations,
complete the task and merge the plan into any pending hand-off. -/
def architectStage (env : Env) (userRequest : String) (s : RunState) :
    StageOut String :=
  let p := pushTask s "Architecture Planning" .architect
  match generate env .architect [("request", userRequest)] p.2 with
  | .thrown e s2 => .thrown e s2
  | .ok (text, grounding) s2 =>
      let architectPlan := jsOr text ""
      let s3 := pushMsg s2 .agent (some .architect) architectPlan none grounding
      let s4 := completeTask s3 p.1
      let s5 := { s4 with app := { s4.app with
            pendingDeveloperContext := s4.app.pendingDeveloperContext.map
              (fun q => { q with architectPlan := architectPlan }) } }
      .ok architectPlan s5

/-- Duplicated inline developer block of `handleSendMessage`
(`src/App.tsx` lines 756-799): it creates a second `Implementation` task
that is never completed and — outside the template short-circuit — issues
a generation request and runs the extraction/parse dance, but every
computed value (`generatedCode`, `filename`, `explanation`) is a local
that nothing reads afterwards. -/
def inlineDeveloperCall (env : Env) (userRequest architectPlan : String)
    (s : RunState) : StageOut Unit :=
  match generate env .developer [("plan", architectPlan), ("request", userRequest)] s with
  | .thrown e s1 => .thrown e s1
  | .ok (text, _g) s1 =>
      let rawJson := cleanJson (jsOr text emptyObjText)
      match env.parseDev rawJson with
      | some _ => .ok () s1
      | none => .ok () s1

/-- Task-creating wrapper of the inline developer block (see
`inlineDeveloperCall`): the created task's id is never used again. -/
def inlineDeveloperBlock (env : Env) (userRequest architectPlan : String)
    (options : AgentOptions) (templateKey : Option TemplateKey)
    (s : RunState) : StageOut Unit :=
  let p := pushTask s "Implementation" .developer
  match templateKey with
  | some _ =>
      if options.useThinking = false ∧ options.useSearch = false then .ok () p.2
      else inlineDeveloperCall env userRequest architectPlan p.2
  | none => inlineDeveloperCall env userRequest architectPlan p.2

/-- Body of the `try` block of `handleSendMessage` (`src/App.tsx` lines
661-806).  `designContext0`, `pause0`, `pending0` and `graph0` are the
values captured by the handler's closure at invocation time (the source
reads the stale closure variables `designerPauseEnabled`,
`pendingDeveloperContext` and `projectGraph`, not the mid-run state). -/
def pipelineBody (env : Env) (target : TargetAgent) (options : AgentOptions)
    (userRequest : String) (templateKey : Option TemplateKey)
    (designContext0 : Design) (pause0 : Bool) (pending0 : Option PendingHandoff)
    (graph0 : String) (s : RunState) : StageOut Unit :=
  let step1 : StageOut (Design × Bool) :=
    if target = .team ∨ target = .designer then
      match designerStage env userRequest designContext0 s with
      | .thrown e s1 => .thrown e s1
      | .ok dc s1 =>
          let s2 := { s1 with app := { s1.app with
                pendingDeveloperContext := some ⟨userRequest, "", options, dc⟩ } }
          .ok (dc, pause0 && decide (target ≠ .designer)) s2
    else .ok (designContext0, false) s
  match step1 with
  | .thrown e s1 => .thrown e s1
  | .ok (designContext, shouldPauseForEdit) s1 =>
    let step2 : StageOut String :=
      if target = .team ∨ target = .architect then architectStage env userRequest s1
      else .ok "" s1
    match step2 with
    | .thrown e s2 => .thrown e s2
    | .ok architectPlan s2 =>
      if shouldPauseForEdit then
        .ok () { s2 with app := { s2.app with isProcessing := false } }
      else
        match (if target = .team ∨ target = .developer then
                 inlineDeveloperBlock env userRequest architectPlan options templateKey s2
               else .ok () s2) with
        | .thrown e s3 => .thrown e s3
        | .ok _ s3 =>
            if target = .team ∨ target = .developer then
              let designForDev := match pending0 with
                | some q => q.design
                | none => designContext
              let architectForDev := match pending0 with
                | some q => jsOr q.architectPlan architectPlan
                | none => architectPlan
              match runDeveloperStage env userRequest architectForDev designForDev
                      options templateKey graph0 s3 with
              | .thrown e s4 => .thrown e s4
              | .ok _ s4 =>
                  .ok () { s4 with app := { s4.app with pendingDeveloperContext := none } }
            else .ok () s3

/-- Embedding of `handleSendMessage` (`src/App.tsx` lines 636-815): entry
guards (non-empty trimmed input or an image attachment, then credential
presence), the user message, sanitisation and template detection, the
`try` body, the catch handler appending one system message, and the
`finally` clearing `isProcessing`.  Returns the final app state together
with the trace of generation requests the run issued. -/
def handleSendMessage (target : TargetAgent) (options : AgentOptions)
    (env : Env) (app : AppState) : AppState × List GenRequest :=
  if jsTrim app.inputValue = "" ∧ options.image = none then (app, [])
  else if env.apiKeyPresent = false then
    let s := pushMsg ⟨app, 0, []⟩ .system none missingKeyText none []
    ({ s.app with isProcessing := false }, s.trace)
  else
    let s1 := pushMsg ⟨app, 0, []⟩ .user none app.inputValue options.image []
    let s2 := { s1 with app := { s1.app with inputValue := "", isProcessing := true } }
    let userRequest := sanitizeForPrompt app.inputValue
    let s3 := { s2 with app := { s2.app with lastUserRequest := userRequest } }
    let templateKey := detectTemplateKey userRequest
    let designContext0 : Design :=
      ⟨app.designTokens, jsOr app.designLibrary DEFAULT_DESIGN_LIBRARY, app.designBrief⟩
    match pipelineBody env target options userRequest templateKey designContext0
            app.designerPauseEnabled app.pendingDeveloperContext app.projectGraph s3 with
    | .ok _ s4 => ({ s4.app with isProcessing := false }, s4.trace)
    | .thrown e s4 =>
        let s5 := pushMsg s4 .system none (agentFailureMessage e) none []
        ({ s5.app with isProcessing := false }, s5.trace)

/-- Embedding of `resumeDeveloperFromDesign` (`src/App.tsx` lines 817-838):
a no-op without a pending hand-off; otherwise re-enter the developer stage
from the stored context, re-reading the live design tokens, then clear the
hand-off and the processing flag.  The source has no catch here: a thrown
stage leaves the hand-off stored and `isProcessing` true. -/
def resumeDeveloperFromDesign (env : Env) (app : AppState) :
    AppState × List GenRequest :=
  match app.pendingDeveloperContext with
  | none => (app, [])
  | some context =>
      if env.apiKeyPresent = false then
        let s := pushMsg ⟨app, 0, []⟩ .system none missingKeyText none []
        (s.app, s.trace)
      else
        let s0 : RunState := ⟨{ app with isProcessing := true }, 0, []⟩
        let design : Design :=
          { context.design with tokens := jsOr app.designTokens context.design.tokens }
        match runDeveloperStage env context.userRequest context.architectPlan design
                context.options (detectTemplateKey context.userRequest)
                app.projectGraph s0 with
        | .thrown _ s1 => (s1.app, s1.trace)
        | .ok _ s1 =>
            ({ s1.app with pendingDeveloperContext := none, isProcessing := false },
             s1.trace)

/-- Demo app state with a non-template request, used as the concrete run
context of the duplicated-developer-block evaluations. -/
def demoApp : AppState :=
  ⟨[], [], [], none, "tok0", "lib0", "brief0", none, true, false, "graph0", "",
   "Build a weather dashboard", 0⟩

/-- Environment whose model service always succeeds with fixed text and
whose JSON parses fail (irrelevant to the counted requests and tasks). -/
def demoOkEnv : Env := ⟨true, fun _ => .ok "modeltext" [], fun _ => none, fun _ => none⟩

/-- State carried by a stage result, whether it returned or threw. -/
def stateOf {α : Type} : StageOut α → RunState
  | .ok _ s => s
  | .thrown _ s => s

/-- No prefix of the text starting at the first `{` is a balanced object
(so the extractor's scan finds no balanced close). -/
def NoBalancedAtFirstBrace (s : String) : Prop :=
  match firstIndexOfOpen s.data with
  | none => True
  | some i => ∀ n, n ≤ (s.data.drop i).length →
      ¬BalancedObject ((s.data.drop i).take n)

instance (s : String) : Decidable (NoBalancedAtFirstBrace s) := by
  unfold NoBalancedAtFirstBrace
  rcases firstIndexOfOpen s.data with _ | i <;> infer_instance

/-- Discriminator of a model-call outcome. -/
def ModelOutcome.isOk : ModelOutcome → Bool
  | .ok _ _ => true
  | .err _ => false

/-- Demo app state whose request matches the kanban template. -/
def kanbanApp : AppState :=
  { demoApp with inputValue := "Build a kanban board with resizable columns" }

/-- Environment whose model service throws a leaked-key payload. -/
def leakEnv : Env :=
  ⟨true,
   fun _ => .err (.payload ⟨some 403, some "PERMISSION_DENIED",
      some "Your API key was reported as leaked."⟩),
   fun _ => none, fun _ => none⟩

/-- Environment whose model service throws a plain string error. -/
def failEnv : Env := ⟨true, fun _ => .err (.strErr "boom"), fun _ => none, fun _ => none⟩

/-- The balanced object with string-literal braces used by the C8 witness. -/
def c8Obj : List Char :=
  [openBrace, quoteChar, 'a', quoteChar, ':', quoteChar, closeBrace, openBrace,
   quoteChar, closeBrace]

theorem jsOr_empty_right (x : String) : jsOr x "" = x := by
  unfold jsOr; split <;> simp_all

/-- Claim C1 (code bug): in a `developer`-target run whose request matches no
template, the developer stage issues two generation requests, not one. -/
theorem c1_duplicate_developer_request :
    ((handleSendMessage .developer ⟨false, false, none⟩ demoOkEnv demoApp).2.map
        GenRequest.role) = [.developer, .developer, .critic] ∧
    (((handleSendMessage .developer ⟨false, false, none⟩ demoOkEnv demoApp).2.map
        GenRequest.role).count .developer) = 2 := by
  constructor <;> rfl

/-- Claim C2 (code bug): the same successful run leaves the inline block's
developer task in `active` status forever, while exactly one developer
message is appended. -/
theorem c2_orphan_active_task :
    ((handleSendMessage .developer ⟨false, false, none⟩ demoOkEnv demoApp).1.tasks.map
        (fun t => (t.title, t.status, t.assignedTo))) =
      [("Implementation", TaskStatus.active, Role.developer),
       ("Implementation", TaskStatus.completed, Role.developer),
       ("Critic Review", TaskStatus.completed, Role.critic)] ∧
    (((handleSendMessage .developer ⟨false, false, none⟩ demoOkEnv demoApp).1.messages.filter
        (fun m => m.agentRole == some Role.developer)).map ChatMessage.text) =
      [devErrorExplanation] := by
  constructor <;> rfl

/-- Claim C10: template keyword detection follows the fixed priority order
kanban, calculator, todo, login over the lowercased request text; when
several keywords occur, the earliest in that order determines the
selected template. -/
theorem c10_template_priority (r : String) :
    (containsSub (jsToLower r) "kanban" = true →
       detectTemplateKey r = some TemplateKey.kanban) ∧
    (containsSub (jsToLower r) "kanban" = false →
     containsSub (jsToLower r) "calculator" = true →
       detectTemplateKey r = some TemplateKey.calculator) ∧
    (containsSub (jsToLower r) "kanban" = false →
     containsSub (jsToLower r) "calculator" = false →
     containsSub (jsToLower r) "todo" = true →
       detectTemplateKey r = some TemplateKey.todo) ∧
    (containsSub (jsToLower r) "kanban" = false →
     containsSub (jsToLower r) "calculator" = false →
     containsSub (jsToLower r) "todo" = false →
     containsSub (jsToLower r) "login" = true →
       detectTemplateKey r = some TemplateKey.login) := by
  refine ⟨?_, ?_, ?_, ?_⟩ <;> · intros; unfold detectTemplateKey; simp_all

/-- Witness for C10: a request containing both "todo" and "kanban" selects
the kanban template. -/
theorem c10_template_priority_witness :
    containsSub (jsToLower "Make a todo and Kanban app") "kanban" = true ∧
    containsSub (jsToLower "Make a todo and Kanban app") "todo" = true ∧
    detectTemplateKey "Make a todo and Kanban app" = some TemplateKey.kanban :=
  ⟨by decide, by decide,
   (c10_template_priority "Make a todo and Kanban app").1 (by decide)⟩

/-- Claim C7: a payload with code 403, status PERMISSION_DENIED and a
message containing "reported as leaked" is classified as a leaked key, so
the system message appended by a run that hits it carries the leaked-key
remediation text rather than the generic mission-aborted fallback; and the
classifier distinguishes leaked/revoked-key, permission-denied and generic
errors as specified. -/
theorem c7_error_classification :
    (∀ (app : AppState) (options : AgentOptions) (env : Env) (msg : String),
       jsTrim app.inputValue ≠ "" →
       env.apiKeyPresent = true →
       env.oracle 0 = .err (.payload ⟨some 403, some "PERMISSION_DENIED", some msg⟩) →
       containsSub (jsToLower msg) "reported as leaked" = true →
       (((handleSendMessage .team options env app).1.messages.drop
           app.messages.length).filter (fun m => m.sender == Sender.system)).map
           ChatMessage.text =
         ["Error connecting to agents: " ++ leakedKeyText ++
            " Please verify your Gemini API key and network access."] ∧
       containsSub ("Error connecting to agents: " ++ leakedKeyText ++
            " Please verify your Gemini API key and network access.")
           "Generate a new API key" = true ∧
       containsSub ("Error connecting to agents: " ++ leakedKeyText ++
            " Please verify your Gemini API key and network access.")
           "Mission aborted" = false) ∧
    (∀ inner : InnerError, ∀ msg, inner.message = some msg →
       containsSub (jsToLower msg) "reported as leaked" = true →
       formatAgentError (.payload inner) = leakedKeyText) ∧
    (∀ inner : InnerError, ∀ msg, inner.message = some msg →
       inner.code = some 403 → inner.status = some "PERMISSION_DENIED" →
       containsSub (jsToLower msg) "api key" = true →
       formatAgentError (.payload inner) = leakedKeyText) ∧
    (∀ inner : InnerError, ∀ msg, inner.message = some msg →
       containsSub (jsToLower msg) "reported as leaked" = false →
       containsSub (jsToLower msg) "api key" = false →
       (inner.code = some 403 ∨ inner.status = some "PERMISSION_DENIED") →
       formatAgentError (.payload inner) = jsOr msg permissionDeniedFallbackText) ∧
    (∀ inner : InnerError, ∀ msg, inner.message = some msg →
       containsSub (jsToLower msg) "reported as leaked" = false →
       inner.code ≠ some 403 → inner.status ≠ some "PERMISSION_DENIED" →
       formatAgentError (.payload inner) = msg) := by
  refine ⟨?_, ?_, ?_, ?_, ?_⟩
  · intro app options env msg hin hkey horacle hleak
    refine ⟨?_, by decide, by decide⟩
    have hfmt : formatAgentError (.payload ⟨some 403, some "PERMISSION_DENIED", some msg⟩) =
        leakedKeyText := by
      unfold formatAgentError
      simp [hleak]
    unfold handleSendMessage pipelineBody designerStage pushTask generate
    simp [hin, hkey, horacle, pushMsg, agentFailureMessage, hfmt,
          List.drop_left, List.append_assoc, List.filter_append]
    rw [if_neg (by decide), String.append_assoc]
  · intro inner msg hmsg hleak
    unfold formatAgentError
    rcases inner with ⟨c, st, m⟩
    simp_all
  · intro inner msg hmsg hc hs hapi
    unfold formatAgentError
    rcases inner with ⟨c, st, m⟩
    simp_all
  · intro inner msg hmsg hleak hapi hperm
    unfold formatAgentError
    rcases inner with ⟨c, st, m⟩
    rcases hperm with h | h <;> simp_all [jsOr]
  · intro inner msg hmsg hleak hc hs
    unfold formatAgentError
    rcases inner with ⟨c, st, m⟩
    simp_all

/-- Claim C4: with a template-matching request and neither reasoning nor
search set, a developer-target run issues no developer generation request,
produces the canned template file as the active file, completes a
developer task, and still runs the critic with exactly one request. -/
theorem c4_template_short_circuit (app : AppState) (env : Env)
    (image : Option String) (k : TemplateKey)
    (hin : jsTrim app.inputValue ≠ "")
    (hkey : env.apiKeyPresent = true)
    (htk : detectTemplateKey (sanitizeForPrompt app.inputValue) = some k) :
    ((handleSendMessage .developer ⟨false, false, image⟩ env app).2.map
        GenRequest.role) = [Role.critic] ∧
    (handleSendMessage .developer ⟨false, false, image⟩ env app).1.activeFile =
      some (FileNode.file (TEMPLATES k).filename (some "typescript")
        (some (TEMPLATES k).content) true) ∧
    ∃ t ∈ (handleSendMessage .developer ⟨false, false, image⟩ env app).1.tasks,
      t.assignedTo = Role.developer ∧ t.status = TaskStatus.completed ∧
      t.title = "Implementation" := by
  unfold handleSendMessage pipelineBody inlineDeveloperBlock runDeveloperStage
    runCriticStage pushTask generate
  rcases horacle : env.oracle 0 with ⟨t0, g0⟩ | e0 <;>
    simp [hin, hkey, htk, pushMsg, completeTask, horacle] <;>
    exact ⟨⟨app.nextId + 1 + 1, "Implementation", .completed, .developer⟩,
      by simp, rfl, rfl, rfl⟩

theorem insertIntoSrc_some_rootSrc (filename : String) (newFile : FileNode)
    (files next : List FileNode)
    (h : insertIntoSrc filename newFile files = some next) :
    ∃ ch, rootSrcChildren files = some ch ∧
      rootSrcChildren next = some ((ch.filter (fun c => c.name != filename)) ++ [newFile]) := by
  induction files generalizing next with
  | nil => simp [insertIntoSrc] at h
  | cons f rest ih =>
    cases f with
    | folder nm op ch =>
      by_cases hnm : nm = "src"
      · subst hnm
        simp [insertIntoSrc] at h
        subst h
        simp [rootSrcChildren]
      · simp [insertIntoSrc, hnm] at h
        rcases h with ⟨next', hnext', rfl⟩
        rcases ih next' hnext' with ⟨ch', h1, h2⟩
        exact ⟨ch', by simp [rootSrcChildren, hnm, h1], by simp [rootSrcChildren, hnm, h2]⟩
    | file nm lang c isNew =>
      simp [insertIntoSrc] at h
      rcases h with ⟨next', hnext', rfl⟩
      rcases ih next' hnext' with ⟨ch', h1, h2⟩
      exact ⟨ch', by simp [rootSrcChildren, h1], by simp [rootSrcChildren, h2]⟩

theorem insertIntoSrc_none_rootSrc (filename : String) (newFile : FileNode)
    (files : List FileNode)
    (h : insertIntoSrc filename newFile files = none) :
    rootSrcChildren files = none := by
  induction files with
  | nil => simp [rootSrcChildren]
  | cons f rest ih =>
    cases f with
    | folder nm op ch =>
      by_cases hnm : nm = "src"
      · subst hnm; simp [insertIntoSrc] at h
      · simp [insertIntoSrc, hnm] at h
        simp [rootSrcChildren, hnm, ih h]
    | file nm lang c isNew =>
      simp [insertIntoSrc] at h
      simp [rootSrcChildren, ih h]

theorem rootSrcChildren_append_file (files : List FileNode)
    (nm : String) (lang c : Option String) (b : Bool)
    (h : rootSrcChildren files = none) :
    rootSrcChildren (files ++ [FileNode.file nm lang c b]) = none := by
  induction files with
  | nil => simp [rootSrcChildren]
  | cons f rest ih =>
    cases f with
    | folder nm' op ch =>
      by_cases hnm : nm' = "src"
      · subst hnm; simp [rootSrcChildren] at h
      · simp [rootSrcChildren, hnm] at h ⊢; exact ih h
    | file nm' lang' c' b' =>
      simp [rootSrcChildren] at h ⊢; exact ih h

/-- Characterisation of the developer stage's file placement: the new file
replaces every like-named entry in the first `src` folder when one exists,
else it is appended at the root. -/
theorem placeGeneratedFile_spec (files : List FileNode) (filename : String)
    (nm : String) (lang c : Option String) (b : Bool) (hn : nm = filename) :
    (match rootSrcChildren (placeGeneratedFile files filename (FileNode.file nm lang c b)) with
     | some ch => FileNode.file nm lang c b ∈ ch ∧
         ∀ g ∈ ch, g.name = filename → g = FileNode.file nm lang c b
     | none => placeGeneratedFile files filename (FileNode.file nm lang c b) =
         files ++ [FileNode.file nm lang c b]) := by
  subst hn
  unfold placeGeneratedFile
  rcases hins : insertIntoSrc nm (FileNode.file nm lang c b) files with _ | next
  · have hroot := insertIntoSrc_none_rootSrc nm (FileNode.file nm lang c b) files hins
    rw [rootSrcChildren_append_file files nm lang c b hroot]
  · rcases insertIntoSrc_some_rootSrc nm (FileNode.file nm lang c b) files next hins
      with ⟨ch, _h1, h2⟩
    rw [h2]
    constructor
    · simp
    · intro g hg hgname
      rcases List.mem_append.mp hg with hg | hg
      · rcases List.mem_filter.mp hg with ⟨_, hne⟩
        simp [hgname] at hne
      · simpa using hg

/-- Claim C5: when the developer-stage model response's extracted text
fails JSON parsing, the stage substitutes the visible error placeholder as
the file content, appends the explanatory developer message, still creates
the file — replaced-by-name into the first `src` folder or appended at the
root — makes it the active file, and continues to the critic stage (a
critic request is issued) instead of aborting the run. -/
theorem c5_parse_failure_recovery (env : Env) (userRequest architectPlan : String)
    (design : Design) (options : AgentOptions) (graph : String) (s : RunState)
    (t0 : String) (g0 : List (String × String))
    (horacle : env.oracle s.calls = .ok t0 g0)
    (hparse : env.parseDev (cleanJson (jsOr t0 emptyObjText)) = none) :
    ((stateOf (runDeveloperStage env userRequest architectPlan design options none
        graph s)).trace.map GenRequest.role) =
      s.trace.map GenRequest.role ++ [Role.developer, Role.critic] ∧
    (stateOf (runDeveloperStage env userRequest architectPlan design options none
        graph s)).app.activeFile =
      some (FileNode.file "Component.tsx" (some "typescript") (some devErrorContent) true) ∧
    (((stateOf (runDeveloperStage env userRequest architectPlan design options none
        graph s)).app.messages.drop s.app.messages.length).filter
        (fun m => m.agentRole == some Role.developer)).map ChatMessage.text =
      [devErrorExplanation] ∧
    (match rootSrcChildren ((stateOf (runDeveloperStage env userRequest architectPlan
          design options none graph s)).app.files) with
     | some ch =>
         FileNode.file "Component.tsx" (some "typescript") (some devErrorContent) true ∈ ch ∧
         ∀ g ∈ ch, g.name = "Component.tsx" →
           g = FileNode.file "Component.tsx" (some "typescript") (some devErrorContent) true
     | none =>
         (stateOf (runDeveloperStage env userRequest architectPlan design options none
            graph s)).app.files =
           s.app.files ++
             [FileNode.file "Component.tsx" (some "typescript") (some devErrorContent) true]) := by
  have hplace := placeGeneratedFile_spec s.app.files "Component.tsx" "Component.tsx"
    (some "typescript") (some devErrorContent) true rfl
  unfold runDeveloperStage developerModelCall runCriticStage pushTask generate
  rcases horacle2 : env.oracle (s.calls + 1) with ⟨t1, g1⟩ | e1 <;>
    simp [horacle, horacle2, hparse, pushMsg, completeTask, stateOf, List.drop_left,
      List.append_assoc, List.filter_append] <;>
    exact hplace

/-- Dropping the length of a mapped prefix recovers the appended suffix. -/
theorem drop_length_map_append {α β : Type} (f : α → β) (l1 : List α) (l2 : List β) :
    (List.map f l1 ++ l2).drop l1.length = l2 := by
  have h := List.drop_left (List.map f l1) l2
  simpa using h

/-- Counterexample to claim C3 as stated: in a `team` run with hand-off
pausing enabled, the architect stage runs — issuing its generation
request, appending its message and completing its task — before the
pipeline stores the hand-off and stops; the claim's "stops before the
architect and developer stages run" fails. -/
theorem c3_architect_runs_before_pause :
    ((handleSendMessage .team ⟨false, false, none⟩ demoOkEnv demoApp).2.map
        GenRequest.role) = [Role.designer, Role.architect] ∧
    (handleSendMessage .team ⟨false, false, none⟩ demoOkEnv demoApp).1.isProcessing = false ∧
    ((handleSendMessage .team ⟨false, false, none⟩ demoOkEnv demoApp).1.pendingDeveloperContext).isSome = true ∧
    ((handleSendMessage .team ⟨false, false, none⟩ demoOkEnv demoApp).1.tasks.map
        (fun t => (t.title, t.status, t.assignedTo))) =
      [("Design System Draft", TaskStatus.completed, Role.designer),
       ("Architecture Planning", TaskStatus.completed, Role.architect)] :=
  ⟨rfl, rfl, rfl, rfl⟩

/-- Claim C3 as amended: in a `team` run with hand-off pausing enabled (and
no stale hand-off or template match), the designer AND architect stages
complete, a `PendingHandoff` holding the sanitised request, the architect
plan and the options is stored, and the pipeline stops (`isProcessing`
false) before the developer stage runs — no developer or critic request is
issued.  A later explicit resume consumes the hand-off exactly once:
it runs the developer stage from the stored context, re-reading the
live-edited design tokens, then the critic, clears the pending slot and
the processing flag, and a second resume is a no-op. -/
theorem c3_amended_handoff (app : AppState) (options : AgentOptions)
    (env env2 env3 : Env) (t0 t1 t2 t3 : String)
    (g0 g1 g2 g3 : List (String × String))
    (hin : jsTrim app.inputValue ≠ "")
    (hkey : env.apiKeyPresent = true)
    (hpause : app.designerPauseEnabled = true)
    (hpend : app.pendingDeveloperContext = none)
    (hntk : detectTemplateKey (sanitizeForPrompt app.inputValue) = none)
    (h0 : env.oracle 0 = .ok t0 g0)
    (h1 : env.oracle 1 = .ok t1 g1)
    (hkey2 : env2.apiKeyPresent = true)
    (h20 : env2.oracle 0 = .ok t2 g2)
    (h21 : env2.oracle 1 = .ok t3 g3) :
    ((handleSendMessage .team options env app).2.map GenRequest.role) =
      [Role.designer, Role.architect] ∧
    (handleSendMessage .team options env app).1.isProcessing = false ∧
    (((handleSendMessage .team options env app).1.tasks.drop app.tasks.length).map
        (fun t => (t.title, t.status, t.assignedTo))) =
      [("Design System Draft", TaskStatus.completed, Role.designer),
       ("Architecture Planning", TaskStatus.completed, Role.architect)] ∧
    ∃ ctx, (handleSendMessage .team options env app).1.pendingDeveloperContext = some ctx ∧
      ctx.userRequest = sanitizeForPrompt app.inputValue ∧
      ctx.architectPlan = t1 ∧
      ctx.options = options ∧
      ((resumeDeveloperFromDesign env2 (handleSendMessage .team options env app).1).2.map
          GenRequest.role) = [Role.developer, Role.critic] ∧
      (((resumeDeveloperFromDesign env2 (handleSendMessage .team options env app).1).2.map
          GenRequest.args).head?) =
        some [("plan", ctx.architectPlan),
              ("tokens", jsOr (handleSendMessage .team options env app).1.designTokens
                 ctx.design.tokens),
              ("library", ctx.design.library), ("brief", ctx.design.brief),
              ("graph", (handleSendMessage .team options env app).1.projectGraph),
              ("request", ctx.userRequest)] ∧
      (resumeDeveloperFromDesign env2
          (handleSendMessage .team options env app).1).1.pendingDeveloperContext = none ∧
      (resumeDeveloperFromDesign env2
          (handleSendMessage .team options env app).1).1.isProcessing = false ∧
      resumeDeveloperFromDesign env3
          (resumeDeveloperFromDesign env2 (handleSendMessage .team options env app).1).1 =
        ((resumeDeveloperFromDesign env2 (handleSendMessage .team options env app).1).1, []) := by
  rcases hdp : env.parseDesigner (cleanJson (jsOr t0 emptyObjText)) with _ | pd <;>
    rcases hdev : env2.parseDev (cleanJson (jsOr t2 emptyObjText)) with _ | dj <;>
      simp [handleSendMessage, pipelineBody, designerStage, architectStage,
            resumeDeveloperFromDesign, runDeveloperStage, developerModelCall,
            runCriticStage, generate, pushTask,
            hin, hkey, hpause, hpend, hntk, h0, h1, hkey2, h20, h21, hdp, hdev,
            pushMsg, completeTask, jsOr_empty_right, drop_length_map_append,
            List.map_map, List.drop_left, List.append_assoc]

theorem cleanJsonLoop_cons (c : Char) (l : List Char) (consumed : Nat) (st : SpecState) :
    cleanJsonLoop (c :: l) consumed st.depth st.inStr st.esc =
      if (specStep st c).inStr = false ∧ c = closeBrace ∧ (specStep st c).depth = 0
      then some (consumed + 1)
      else cleanJsonLoop l (consumed + 1) (specStep st c).depth (specStep st c).inStr
            (specStep st c).esc := by
  simp only [cleanJsonLoop, specStep]

theorem quote_ne_close : quoteChar ≠ closeBrace := by decide

theorem quote_ne_open : quoteChar ≠ openBrace := by decide

theorem open_ne_close : openBrace ≠ closeBrace := by decide

theorem close_ne_quote : closeBrace ≠ quoteChar := by decide

theorem open_ne_quote : openBrace ≠ quoteChar := by decide

theorem close_ne_open : closeBrace ≠ openBrace := by decide

theorem specStep_depth_cases (st : SpecState) (c : Char) :
    (specStep st c).depth = st.depth ∨ (specStep st c).depth = st.depth + 1 ∨
    (specStep st c).depth = st.depth - 1 := by
  rcases st with ⟨d, inS, esc⟩
  simp only [specStep]
  by_cases hq : c = quoteChar ∧ esc = false <;> by_cases ho : c = openBrace <;>
    by_cases hc : c = closeBrace <;> cases inS <;>
    simp_all [quote_ne_close, quote_ne_open, open_ne_close, close_ne_quote,
      open_ne_quote, close_ne_open]

theorem specStep_zero (st : SpecState) (c : Char) (h1 : 1 ≤ st.depth)
    (h0 : (specStep st c).depth = 0) :
    (specStep st c).inStr = false ∧ c = closeBrace := by
  rcases st with ⟨d, inS, esc⟩
  simp only [specStep] at h0 ⊢
  by_cases hq : c = quoteChar ∧ esc = false <;> by_cases ho : c = openBrace <;>
    by_cases hc : c = closeBrace <;> cases inS <;>
    simp_all [quote_ne_close, quote_ne_open, open_ne_close, close_ne_quote,
      open_ne_quote, close_ne_open] <;>
    first
    | omega
    | (exfalso; omega)

theorem runSpecFrom_cons (st : SpecState) (c : Char) (l : List Char) :
    runSpecFrom st (c :: l) = runSpecFrom (specStep st c) l := rfl

theorem cleanJsonLoop_complete (obj : List Char) :
    ∀ (st : SpecState) (post : List Char) (consumed : Nat),
    1 ≤ st.depth →
    (runSpecFrom st obj).depth = 0 →
    (∀ n, n < obj.length → (runSpecFrom st (obj.take n)).depth ≠ 0) →
    cleanJsonLoop (obj ++ post) consumed st.depth st.inStr st.esc =
      some (consumed + obj.length) := by
  induction obj with
  | nil =>
    intro st post consumed h1 hfull _hpre
    simp [runSpecFrom] at hfull
    omega
  | cons c rest ih =>
    intro st post consumed h1 hfull hpre
    have hcons : (c :: rest) ++ post = c :: (rest ++ post) := rfl
    rw [hcons, cleanJsonLoop_cons]
    cases rest with
    | nil =>
      have hz : (specStep st c).depth = 0 := by
        simpa [runSpecFrom] using hfull
      rcases specStep_zero st c h1 hz with ⟨hi, hc⟩
      rw [if_pos ⟨hi, hc, hz⟩]
      simp
    | cons c2 rest2 =>
      have hst1 : (runSpecFrom st ((c :: c2 :: rest2).take 1)).depth ≠ 0 := by
        exact hpre 1 (by simp)
      have hst1' : (specStep st c).depth ≠ 0 := by
        simpa [runSpecFrom] using hst1
      have hnotif : ¬((specStep st c).inStr = false ∧ c = closeBrace ∧
          (specStep st c).depth = 0) := by
        rintro ⟨_, _, h⟩; exact hst1' h
      rw [if_neg hnotif]
      have hge : 1 ≤ (specStep st c).depth := by
        rcases specStep_depth_cases st c with h | h | h <;> omega
      have := ih (specStep st c) post (consumed + 1) hge
        (by simpa [runSpecFrom] using hfull)
        (by
          intro n hn
          have := hpre (n + 1) (by simpa using Nat.succ_lt_succ hn)
          simpa [runSpecFrom] using this)
      rw [this]
      congr 1
      simp
      omega

theorem cleanJsonLoop_sound (l : List Char) :
    ∀ (st : SpecState) (consumed m : Nat),
    1 ≤ st.depth →
    cleanJsonLoop l consumed st.depth st.inStr st.esc = some m →
    consumed < m ∧ m - consumed ≤ l.length ∧
    (runSpecFrom st (l.take (m - consumed))).depth = 0 ∧
    ∀ n, n < m - consumed → (runSpecFrom st (l.take n)).depth ≠ 0 := by
  induction l with
  | nil =>
    intro st consumed m _h1 h
    simp [cleanJsonLoop] at h
  | cons c rest ih =>
    intro st consumed m h1 h
    rw [cleanJsonLoop_cons] at h
    by_cases htest : (specStep st c).inStr = false ∧ c = closeBrace ∧
        (specStep st c).depth = 0
    · rw [if_pos htest] at h
      have hm : m = consumed + 1 := by simpa using h.symm
      subst hm
      refine ⟨by omega, by simp, ?_, ?_⟩
      · simpa [runSpecFrom] using htest.2.2
      · intro n hn
        have hn0 : n = 0 := by omega
        subst hn0
        simp [runSpecFrom]
        omega
    · rw [if_neg htest] at h
      have hne : (specStep st c).depth ≠ 0 := by
        intro hz
        rcases specStep_zero st c h1 hz with ⟨hi, hc⟩
        exact htest ⟨hi, hc, hz⟩
      have hge : 1 ≤ (specStep st c).depth := by
        rcases specStep_depth_cases st c with hh | hh | hh <;> omega
      rcases ih (specStep st c) (consumed + 1) m hge h with ⟨ha, hb, hc2, hd⟩
      refine ⟨by omega, by simp; omega, ?_, ?_⟩
      · have : m - consumed = (m - (consumed + 1)) + 1 := by omega
        rw [this]
        simpa [runSpecFrom] using hc2
      · intro n hn
        cases n with
        | zero =>
          simp [runSpecFrom]
          omega
        | succ k =>
          have : k < m - (consumed + 1) := by omega
          have := hd k this
          simpa [runSpecFrom] using this

theorem firstIndexOfOpen_append (pre l : List Char) (hpre : openBrace ∉ pre)
    (hl : l.head? = some openBrace) :
    firstIndexOfOpen (pre ++ l) = some pre.length := by
  induction pre with
  | nil =>
    cases l with
    | nil => simp at hl
    | cons c rest =>
      simp at hl
      simp [firstIndexOfOpen, hl]
  | cons c cs ih =>
    have hc : c ≠ openBrace := by
      intro hh; exact hpre (by simp [hh])
    have hcs : openBrace ∉ cs := fun hh => hpre (by simp [hh])
    simp [firstIndexOfOpen, hc, ih hcs]

theorem firstIndexOfOpen_head (l : List Char) :
    ∀ i, firstIndexOfOpen l = some i → (l.drop i).head? = some openBrace := by
  induction l with
  | nil => intro i h; simp [firstIndexOfOpen] at h
  | cons c rest ih =>
    intro i h
    by_cases hc : c = openBrace
    · simp [firstIndexOfOpen, hc] at h
      subst h
      simp [hc]
    · simp [firstIndexOfOpen, hc] at h
      rcases h with ⟨i', hi', rfl⟩
      simpa using ih i' hi'

/-- Claim C8: for every input containing a syntactically balanced `{...}`
object starting at the first `{` — braces inside double-quoted strings,
with backslash-escaped quotes honoured, being ignored — `cleanJson`
returns exactly that balanced object, dropping any text before and after
it. -/
theorem c8_cleanJson_extracts_balanced (pre obj post : List Char)
    (hpre : openBrace ∉ pre) (hobj : BalancedObject obj) :
    cleanJson ⟨pre ++ obj ++ post⟩ = ⟨obj⟩ := by
  rcases hobj with ⟨hhead, hfull, hprefix⟩
  cases obj with
  | nil => simp at hhead
  | cons c0 obj1 =>
    simp at hhead
    subst hhead
    unfold cleanJson
    congr 1
    show cleanJsonL (pre ++ (openBrace :: obj1) ++ post) = openBrace :: obj1
    have e1 : firstIndexOfOpen (pre ++ ((openBrace :: obj1) ++ post)) = some pre.length :=
      firstIndexOfOpen_append pre ((openBrace :: obj1) ++ post) hpre (by simp)
    have e2 : List.drop pre.length (pre ++ ((openBrace :: obj1) ++ post)) =
        (openBrace :: obj1) ++ post := List.drop_left _ _
    have hstep : specStep spec0 openBrace = ⟨1, false, false⟩ := by decide
    have hloop : cleanJsonLoop ((openBrace :: obj1) ++ post) 0 0 false false =
        some (openBrace :: obj1).length := by
      have hcons : (openBrace :: obj1) ++ post = openBrace :: (obj1 ++ post) := rfl
      rw [hcons]
      have h0 : cleanJsonLoop (openBrace :: (obj1 ++ post)) 0 spec0.depth spec0.inStr
          spec0.esc = some (0 + (openBrace :: obj1).length) := by
        rw [cleanJsonLoop_cons]
        rw [if_neg (by
          rw [hstep]
          rintro ⟨_, hcq, _⟩
          exact open_ne_close hcq)]
        rw [hstep]
        have hcomp := cleanJsonLoop_complete obj1 ⟨1, false, false⟩ post 1
          (by simp)
          (by
            have : runSpecFrom spec0 (openBrace :: obj1) =
                runSpecFrom ⟨1, false, false⟩ obj1 := by
              rw [runSpecFrom_cons, hstep]
            rw [← this]; exact hfull)
          (by
            intro n hn
            have h2 := hprefix (n + 1) (by simpa using Nat.succ_lt_succ hn) (by omega)
            have : runSpecFrom spec0 ((openBrace :: obj1).take (n + 1)) =
                runSpecFrom ⟨1, false, false⟩ (obj1.take n) := by
              simp [runSpecFrom_cons, hstep]
            rw [this] at h2
            exact h2)
        simpa [Nat.add_comm] using hcomp
      simpa [spec0] using h0
    have e3 : List.take (openBrace :: obj1).length ((openBrace :: obj1) ++ post) =
        openBrace :: obj1 := List.take_left _ _
    simp only [List.append_assoc, cleanJsonL, e1, e2, hloop, e3]

theorem string_mk_data (s : String) : String.mk s.data = s := by
  cases s; rfl

theorem cleanJsonLoop_balanced (l : List Char) (m : Nat)
    (hhead : l.head? = some openBrace)
    (h : cleanJsonLoop l 0 0 false false = some m) :
    m ≤ l.length ∧ BalancedObject (l.take m) := by
  cases l with
  | nil => simp at hhead
  | cons c rest =>
    simp at hhead
    subst hhead
    have hstep : specStep spec0 openBrace = ⟨1, false, false⟩ := by decide
    have h0 : cleanJsonLoop (openBrace :: rest) 0 spec0.depth spec0.inStr spec0.esc =
        some m := by simpa [spec0] using h
    rw [cleanJsonLoop_cons] at h0
    rw [if_neg (by
      rw [hstep]
      rintro ⟨_, hcq, _⟩
      exact open_ne_close hcq)] at h0
    rw [hstep] at h0
    have hsound := cleanJsonLoop_sound rest ⟨1, false, false⟩ 1 m (by simp) h0
    rcases hsound with ⟨h1m, hlen, hdepth, hpre⟩
    have hm1 : m - 1 + 1 = m := by omega
    constructor
    · simp; omega
    · have htake : (openBrace :: rest).take m = openBrace :: rest.take (m - 1) := by
        rw [← hm1]; rfl
      refine ⟨by simp [htake], ?_, ?_⟩
      · rw [htake, runSpecFrom_cons, hstep]
        exact hdepth
      · intro n hn hpos
        cases n with
        | zero => omega
        | succ k =>
          have hkm : k < m - 1 := by
            simp [htake] at hn
            omega
          have := hpre k hkm
          have htk : ((openBrace :: rest).take m).take (k + 1) =
              openBrace :: rest.take k := by
            rw [htake]
            simp [List.take_take]
            omega
          rw [htk, runSpecFrom_cons, hstep]
          exact this

/-- Claim C9 as amended: `cleanJson` is total by construction; when the
scan from the first `{` finds no balanced object, the result is the
substring from the first `{` through the last `}` when the last `}` lies
strictly after the first `{`, and otherwise the input unchanged; an input
without `{` is likewise returned unchanged. -/
theorem c9_amended_fallback (s : String) (hnb : NoBalancedAtFirstBrace s) :
    cleanJson s = (match specSpanOpenClose s with | some sp => sp | none => s) := by
  unfold NoBalancedAtFirstBrace at hnb
  unfold cleanJson specSpanOpenClose
  rcases h1 : firstIndexOfOpen s.data with _ | i
  · simp only [cleanJsonL, h1]
  · rw [h1] at hnb
    rcases h2 : cleanJsonLoop (s.data.drop i) 0 0 false false with _ | m
    · rcases h3 : lastIndexOfClose s.data with _ | j
      · simp only [cleanJsonL, h1, h2, h3]
      · by_cases hij : i < j
        · simp only [cleanJsonL, h1, h2, h3, if_pos hij]
        · simp only [cleanJsonL, h1, h2, h3, if_neg hij]
    · exfalso
      have hhead := firstIndexOfOpen_head s.data i h1
      have hbal := cleanJsonLoop_balanced (s.data.drop i) m hhead h2
      exact hnb m hbal.1 hbal.2

/-- Counterexample to claim C9 as stated: `"x}y{z"` has unbalanced braces,
yet `cleanJson` returns the whole input, which is neither the span between
the first and last brace characters (`"}y{"`) nor a substring from the
first `{` to a later `}` (none exists). -/
theorem c9_counterexample :
    cleanJson "x\x7dy\x7bz" = "x\x7dy\x7bz" ∧
    specSpanAnyBrace "x\x7dy\x7bz" = some "\x7dy\x7b" ∧
    specSpanOpenClose "x\x7dy\x7bz" = none ∧
    ("x\x7dy\x7bz" : String) ≠ "\x7dy\x7b" :=
  ⟨by decide, by decide, by decide, by decide⟩

theorem take_length_map_append {α : Type} (f : α → α) (l1 l2 : List α) :
    (List.map f l1 ++ l2).take l1.length = List.map f l1 := by
  simpa using List.take_left (List.map f l1) l2

theorem map_fresh_id (tasks : List AgentTask) (nid : Nat) (F : AgentTask → AgentTask)
    (hfresh : ∀ t ∈ tasks, t.id < nid)
    (hF : ∀ t, t.id < nid → F t = t) :
    List.map F tasks = tasks := by
  induction tasks with
  | nil => rfl
  | cons a l ih =>
    simp only [List.map_cons, hF a (hfresh a (by simp)),
      ih (fun t ht => hfresh t (by simp [ht]))]

theorem inlineDeveloperCall_ok (env : Env) (uR aP : String) (s : RunState)
    (h : (env.oracle s.calls).isOk = true) :
    inlineDeveloperCall env uR aP s =
      .ok ()
        { s with
          calls := s.calls + 1
          trace := s.trace ++ [⟨.developer, [("plan", aP), ("request", uR)]⟩] } := by
  unfold inlineDeveloperCall generate
  rcases ho : env.oracle s.calls with ⟨t, g⟩ | e0
  · rcases hpd : env.parseDev (cleanJson (jsOr t emptyObjText)) with _ | d <;> simp [hpd]
  · rw [ho] at h; simp [ModelOutcome.isOk] at h

set_option maxHeartbeats 3200000 in
/-- Claim C6: when a stage's generation call throws (the first oracle error
sits at call index `j` and that call is issued), the run stops there — the
failing request is the last one — appends exactly one system message with
the classified explanation, preserves the pre-existing messages and tasks
in place, never marks any task `failed`, leaves the failing stage's task
(the last one created) in `active` status, and clears the processing
flag. -/

theorem c6_stage_failure_abort (target : TargetAgent) (options : AgentOptions)
    (env : Env) (app : AppState) (j : Nat) (e : AgentError)
    (hin : jsTrim app.inputValue ≠ "")
    (hkey : env.apiKeyPresent = true)
    (hfresh : ∀ t ∈ app.tasks, t.id < app.nextId)
    (herr : env.oracle j = .err e)
    (hok : ∀ i, i < j → ∃ t g, env.oracle i = .ok t g)
    (hreach : j < (handleSendMessage target options env app).2.length) :
    (handleSendMessage target options env app).2.length = j + 1 ∧
    (((handleSendMessage target options env app).1.messages.drop
        app.messages.length).filter (fun m => m.sender == Sender.system)).map
        ChatMessage.text = [agentFailureMessage e] ∧
    (handleSendMessage target options env app).1.messages.take app.messages.length
      = app.messages ∧
    (handleSendMessage target options env app).1.tasks.take app.tasks.length
      = app.tasks ∧
    (((handleSendMessage target options env app).1.tasks.drop app.tasks.length).map
        AgentTask.status).getLast? = some TaskStatus.active ∧
    TaskStatus.failed ∉ (((handleSendMessage target options env app).1.tasks.drop
        app.tasks.length).map AgentTask.status) ∧
    (handleSendMessage target options env app).1.isProcessing = false := by
  cases target with
  | designer =>
    rcases j with _ | k
    · simp [handleSendMessage, pipelineBody, designerStage, generate, pushTask, pushMsg,
            hin, hkey, herr, List.drop_left, List.take_left, List.append_assoc]
    · rcases hok 0 (by omega) with ⟨t0, g0, h0⟩
      rcases hdp : env.parseDesigner (cleanJson (jsOr t0 emptyObjText)) with _ | pd <;>
        simp [handleSendMessage, pipelineBody, designerStage, generate, pushTask,
              pushMsg, completeTask, hin, hkey, h0, hdp] at hreach
  | architect =>
    rcases j with _ | k
    · simp [handleSendMessage, pipelineBody, architectStage, generate, pushTask, pushMsg,
            hin, hkey, herr, List.drop_left, List.take_left, List.append_assoc]
    · rcases hok 0 (by omega) with ⟨t0, g0, h0⟩
      simp [handleSendMessage, pipelineBody, architectStage, generate, pushTask,
            pushMsg, completeTask, hin, hkey, h0] at hreach
  | developer =>
    rcases htk : detectTemplateKey (sanitizeForPrompt app.inputValue) with _ | tk
    · rcases j with _ | _ | _ | k
      · simp [handleSendMessage, pipelineBody, inlineDeveloperBlock, inlineDeveloperCall,
              generate, pushTask, pushMsg, hin, hkey, herr, htk,
              List.drop_left, List.take_left, List.append_assoc]
      · rcases hok 0 (by omega) with ⟨t0, g0, h0⟩
        simp [handleSendMessage, pipelineBody, inlineDeveloperBlock, runDeveloperStage,
              developerModelCall, generate, pushTask, pushMsg, hin, hkey, h0, herr, htk,
              inlineDeveloperCall_ok, ModelOutcome.isOk, List.drop_left, List.take_left, List.append_assoc]
      · rcases hok 0 (by omega) with ⟨t0, g0, h0⟩
        rcases hok 1 (by omega) with ⟨t1, g1, h1⟩
        rcases hpd : env.parseDev (cleanJson (jsOr t1 emptyObjText)) with _ | d <;>
          simp [handleSendMessage, pipelineBody, inlineDeveloperBlock, runDeveloperStage,
                developerModelCall, runCriticStage, generate, pushTask, pushMsg,
                completeTask, hin, hkey, h0, h1, herr, hpd, htk, inlineDeveloperCall_ok, ModelOutcome.isOk,
                drop_length_map_append, take_length_map_append,
                List.drop_left, List.take_left, List.append_assoc] <;>
          exact map_fresh_id app.tasks app.nextId _ hfresh
            (by intro t ht; (try simp only [Function.comp_apply]); split_ifs <;> first | rfl | omega)
      · rcases hok 0 (by omega) with ⟨t0, g0, h0⟩
        rcases hok 1 (by omega) with ⟨t1, g1, h1⟩
        rcases hok 2 (by omega) with ⟨t2, g2, h2⟩
        rcases hpd : env.parseDev (cleanJson (jsOr t1 emptyObjText)) with _ | d <;>
          simp [handleSendMessage, pipelineBody, inlineDeveloperBlock, runDeveloperStage,
                developerModelCall, runCriticStage, generate, pushTask, pushMsg,
                completeTask, hin, hkey, h0, h1, h2, hpd, htk,
                inlineDeveloperCall_ok, ModelOutcome.isOk] at hreach <;> omega
    · by_cases hfl : options.useThinking = false ∧ options.useSearch = false
      · rcases j with _ | k
        · simp [handleSendMessage, pipelineBody, inlineDeveloperBlock, runDeveloperStage,
                runCriticStage, generate, pushTask, pushMsg, completeTask,
                hin, hkey, herr, htk, hfl,
                drop_length_map_append, take_length_map_append,
                List.drop_left, List.take_left, List.append_assoc]
          exact map_fresh_id app.tasks app.nextId _ hfresh
            (by intro t ht; (try simp only [Function.comp_apply]); split_ifs <;> first | rfl | omega)
        · rcases hok 0 (by omega) with ⟨t0, g0, h0⟩
          simp [handleSendMessage, pipelineBody, inlineDeveloperBlock, runDeveloperStage,
                runCriticStage, generate, pushTask, pushMsg, completeTask,
                hin, hkey, h0, htk, hfl] at hreach
      · rcases j with _ | _ | _ | k
        · simp [handleSendMessage, pipelineBody, inlineDeveloperBlock, inlineDeveloperCall,
                generate, pushTask, pushMsg, hin, hkey, herr, htk, hfl,
                List.drop_left, List.take_left, List.append_assoc]
        · rcases hok 0 (by omega) with ⟨t0, g0, h0⟩
          simp [handleSendMessage, pipelineBody, inlineDeveloperBlock, runDeveloperStage,
                developerModelCall, generate, pushTask, pushMsg, hin, hkey, h0, herr, htk,
                hfl, inlineDeveloperCall_ok, ModelOutcome.isOk, List.drop_left, List.take_left,
                List.append_assoc]
        · rcases hok 0 (by omega) with ⟨t0, g0, h0⟩
          rcases hok 1 (by omega) with ⟨t1, g1, h1⟩
          rcases hpd : env.parseDev (cleanJson (jsOr t1 emptyObjText)) with _ | d <;>
            simp [handleSendMessage, pipelineBody, inlineDeveloperBlock, runDeveloperStage,
                  developerModelCall, runCriticStage, generate, pushTask, pushMsg,
                  completeTask, hin, hkey, h0, h1, herr, hpd, htk, hfl,
                  inlineDeveloperCall_ok, ModelOutcome.isOk, drop_length_map_append, take_length_map_append,
                  List.drop_left, List.take_left, List.append_assoc] <;>
            exact map_fresh_id app.tasks app.nextId _ hfresh
              (by intro t ht; (try simp only [Function.comp_apply]); split_ifs <;> first | rfl | omega)
        · rcases hok 0 (by omega) with ⟨t0, g0, h0⟩
          rcases hok 1 (by omega) with ⟨t1, g1, h1⟩
          rcases hok 2 (by omega) with ⟨t2, g2, h2⟩
          rcases hpd : env.parseDev (cleanJson (jsOr t1 emptyObjText)) with _ | d <;>
            simp [handleSendMessage, pipelineBody, inlineDeveloperBlock, runDeveloperStage,
                  developerModelCall, runCriticStage, generate, pushTask, pushMsg,
                  completeTask, hin, hkey, h0, h1, h2, hpd, htk, hfl,
                  inlineDeveloperCall_ok, ModelOutcome.isOk] at hreach <;> omega
  | team =>
    cases hpb : app.designerPauseEnabled with
    | true =>
      rcases j with _ | _ | k
      · simp [handleSendMessage, pipelineBody, designerStage, generate, pushTask, pushMsg,
              hin, hkey, herr, hpb, List.drop_left, List.take_left, List.append_assoc]
      · rcases hok 0 (by omega) with ⟨t0, g0, h0⟩
        rcases hdp : env.parseDesigner (cleanJson (jsOr t0 emptyObjText)) with _ | pd <;>
          simp [handleSendMessage, pipelineBody, designerStage, architectStage, generate,
                pushTask, pushMsg, completeTask, hin, hkey, h0, herr, hdp, hpb,
                drop_length_map_append, take_length_map_append,
                List.drop_left, List.take_left, List.append_assoc] <;>
          exact map_fresh_id app.tasks app.nextId _ hfresh
            (by intro t ht; (try simp only [Function.comp_apply]); split_ifs <;> first | rfl | omega)
      · rcases hok 0 (by omega) with ⟨t0, g0, h0⟩
        rcases hok 1 (by omega) with ⟨t1, g1, h1⟩
        rcases hdp : env.parseDesigner (cleanJson (jsOr t0 emptyObjText)) with _ | pd <;>
          simp [handleSendMessage, pipelineBody, designerStage, architectStage, generate,
                pushTask, pushMsg, completeTask, hin, hkey, h0, h1, hdp, hpb] at hreach <;>
          omega
    | false =>
      rcases htk : detectTemplateKey (sanitizeForPrompt app.inputValue) with _ | tk
      · rcases j with _ | _ | _ | _ | _ | k
        · simp [handleSendMessage, pipelineBody, designerStage, generate, pushTask, pushMsg,
                hin, hkey, herr, hpb, htk, List.drop_left, List.take_left, List.append_assoc]
        · rcases hok 0 (by omega) with ⟨t0, g0, h0⟩
          rcases hdp : env.parseDesigner (cleanJson (jsOr t0 emptyObjText)) with _ | pd <;>
            simp [handleSendMessage, pipelineBody, designerStage, architectStage, generate,
                  pushTask, pushMsg, completeTask, hin, hkey, h0, herr, hdp, hpb, htk,
                  drop_length_map_append, take_length_map_append,
                  List.drop_left, List.take_left, List.append_assoc] <;>
            exact map_fresh_id app.tasks app.nextId _ hfresh
              (by intro t ht; (try simp only [Function.comp_apply]); split_ifs <;> first | rfl | omega)
        · rcases hok 0 (by omega) with ⟨t0, g0, h0⟩
          rcases hok 1 (by omega) with ⟨t1, g1, h1⟩
          rcases hdp : env.parseDesigner (cleanJson (jsOr t0 emptyObjText)) with _ | pd <;>
            simp [handleSendMessage, pipelineBody, designerStage, architectStage,
                  inlineDeveloperBlock, inlineDeveloperCall, generate, pushTask, pushMsg,
                  completeTask, hin, hkey, h0, h1, herr, hdp, hpb, htk,
                  drop_length_map_append, take_length_map_append,
                  List.drop_left, List.take_left, List.append_assoc] <;>
            exact map_fresh_id app.tasks app.nextId _ hfresh
              (by intro t ht; (try simp only [Function.comp_apply]); split_ifs <;> first | rfl | omega)
        · rcases hok 0 (by omega) with ⟨t0, g0, h0⟩
          rcases hok 1 (by omega) with ⟨t1, g1, h1⟩
          rcases hok 2 (by omega) with ⟨t2, g2, h2⟩
          rcases hdp : env.parseDesigner (cleanJson (jsOr t0 emptyObjText)) with _ | pd <;>
            simp [handleSendMessage, pipelineBody, designerStage, architectStage,
                  inlineDeveloperBlock, runDeveloperStage, developerModelCall, generate,
                  pushTask, pushMsg, completeTask, hin, hkey, h0, h1, h2, herr, hdp, hpb,
                  htk, inlineDeveloperCall_ok, ModelOutcome.isOk,
                  drop_length_map_append, take_length_map_append,
                  List.drop_left, List.take_left, List.append_assoc] <;>
            exact map_fresh_id app.tasks app.nextId _ hfresh
              (by intro t ht; (try simp only [Function.comp_apply]); split_ifs <;> first | rfl | omega)
        · rcases hok 0 (by omega) with ⟨t0, g0, h0⟩
          rcases hok 1 (by omega) with ⟨t1, g1, h1⟩
          rcases hok 2 (by omega) with ⟨t2, g2, h2⟩
          rcases hok 3 (by omega) with ⟨t3, g3, h3⟩
          rcases hdp : env.parseDesigner (cleanJson (jsOr t0 emptyObjText)) with _ | pd <;>
            rcases hpd : env.parseDev (cleanJson (jsOr t3 emptyObjText)) with _ | d <;>
              simp [handleSendMessage, pipelineBody, designerStage, architectStage,
                    inlineDeveloperBlock, runDeveloperStage, developerModelCall,
                    runCriticStage, generate, pushTask, pushMsg, completeTask,
                    hin, hkey, h0, h1, h2, h3, herr, hdp, hpd, hpb, htk,
                    inlineDeveloperCall_ok, ModelOutcome.isOk,
                    drop_length_map_append, take_length_map_append,
                    List.drop_left, List.take_left, List.append_assoc] <;>
              exact map_fresh_id app.tasks app.nextId _ hfresh
                (by intro t ht; (try simp only [Function.comp_apply]); split_ifs <;> first | rfl | omega)
        · rcases hok 0 (by omega) with ⟨t0, g0, h0⟩
          rcases hok 1 (by omega) with ⟨t1, g1, h1⟩
          rcases hok 2 (by omega) with ⟨t2, g2, h2⟩
          rcases hok 3 (by omega) with ⟨t3, g3, h3⟩
          rcases hok 4 (by omega) with ⟨t4, g4, h4⟩
          rcases hdp : env.parseDesigner (cleanJson (jsOr t0 emptyObjText)) with _ | pd <;>
            rcases hpd : env.parseDev (cleanJson (jsOr t3 emptyObjText)) with _ | d <;>
              simp [handleSendMessage, pipelineBody, designerStage, architectStage,
                    inlineDeveloperBlock, runDeveloperStage, developerModelCall,
                    runCriticStage, generate, pushTask, pushMsg, completeTask,
                    hin, hkey, h0, h1, h2, h3, h4, hdp, hpd, hpb, htk,
                    inlineDeveloperCall_ok, ModelOutcome.isOk] at hreach <;>
              omega
      · by_cases hfl : options.useThinking = false ∧ options.useSearch = false
        · rcases j with _ | _ | _ | k
          · simp [handleSendMessage, pipelineBody, designerStage, generate, pushTask,
                  pushMsg, hin, hkey, herr, hpb, htk, hfl,
                  List.drop_left, List.take_left, List.append_assoc]
          · rcases hok 0 (by omega) with ⟨t0, g0, h0⟩
            rcases hdp : env.parseDesigner (cleanJson (jsOr t0 emptyObjText)) with _ | pd <;>
              simp [handleSendMessage, pipelineBody, designerStage, architectStage, generate,
                    pushTask, pushMsg, completeTask, hin, hkey, h0, herr, hdp, hpb, htk, hfl,
                    drop_length_map_append, take_length_map_append,
                    List.drop_left, List.take_left, List.append_assoc] <;>
              exact map_fresh_id app.tasks app.nextId _ hfresh
                (by intro t ht; (try simp only [Function.comp_apply]); split_ifs <;> first | rfl | omega)
          · rcases hok 0 (by omega) with ⟨t0, g0, h0⟩
            rcases hok 1 (by omega) with ⟨t1, g1, h1⟩
            rcases hdp : env.parseDesigner (cleanJson (jsOr t0 emptyObjText)) with _ | pd <;>
              simp [handleSendMessage, pipelineBody, designerStage, architectStage,
                    inlineDeveloperBlock, runDeveloperStage, runCriticStage, generate,
                    pushTask, pushMsg, completeTask, hin, hkey, h0, h1, herr, hdp, hpb,
                    htk, hfl, drop_length_map_append, take_length_map_append,
                    List.drop_left, List.take_left, List.append_assoc] <;>
              exact map_fresh_id app.tasks app.nextId _ hfresh
                (by intro t ht; (try simp only [Function.comp_apply]); split_ifs <;> first | rfl | omega)
          · rcases hok 0 (by omega) with ⟨t0, g0, h0⟩
            rcases hok 1 (by omega) with ⟨t1, g1, h1⟩
            rcases hok 2 (by omega) with ⟨t2, g2, h2⟩
            rcases hdp : env.parseDesigner (cleanJson (jsOr t0 emptyObjText)) with _ | pd <;>
              simp [handleSendMessage, pipelineBody, designerStage, architectStage,
                    inlineDeveloperBlock, runDeveloperStage, runCriticStage, generate,
                    pushTask, pushMsg, completeTask, hin, hkey, h0, h1, h2, hdp, hpb,
                    htk, hfl] at hreach <;>
              omega
        · rcases j with _ | _ | _ | _ | _ | k
          · simp [handleSendMessage, pipelineBody, designerStage, generate, pushTask,
                  pushMsg, hin, hkey, herr, hpb, htk, hfl,
                  List.drop_left, List.take_left, List.append_assoc]
          · rcases hok 0 (by omega) with ⟨t0, g0, h0⟩
            rcases hdp : env.parseDesigner (cleanJson (jsOr t0 emptyObjText)) with _ | pd <;>
              simp [handleSendMessage, pipelineBody, designerStage, architectStage, generate,
                    pushTask, pushMsg, completeTask, hin, hkey, h0, herr, hdp, hpb, htk, hfl,
                    drop_length_map_append, take_length_map_append,
                    List.drop_left, List.take_left, List.append_assoc] <;>
              exact map_fresh_id app.tasks app.nextId _ hfresh
                (by intro t ht; (try simp only [Function.comp_apply]); split_ifs <;> first | rfl | omega)
          · rcases hok 0 (by omega) with ⟨t0, g0, h0⟩
            rcases hok 1 (by omega) with ⟨t1, g1, h1⟩
            rcases hdp : env.parseDesigner (cleanJson (jsOr t0 emptyObjText)) with _ | pd <;>
              simp [handleSendMessage, pipelineBody, designerStage, architectStage,
                    inlineDeveloperBlock, inlineDeveloperCall, generate, pushTask, pushMsg,
                    completeTask, hin, hkey, h0, h1, herr, hdp, hpb, htk, hfl,
                    drop_length_map_append, take_length_map_append,
                    List.drop_left, List.take_left, List.append_assoc] <;>
              exact map_fresh_id app.tasks app.nextId _ hfresh
                (by intro t ht; (try simp only [Function.comp_apply]); split_ifs <;> first | rfl | omega)
          · rcases hok 0 (by omega) with ⟨t0, g0, h0⟩
            rcases hok 1 (by omega) with ⟨t1, g1, h1⟩
            rcases hok 2 (by omega) with ⟨t2, g2, h2⟩
            rcases hdp : env.parseDesigner (cleanJson (jsOr t0 emptyObjText)) with _ | pd <;>
              simp [handleSendMessage, pipelineBody, designerStage, architectStage,
                    inlineDeveloperBlock, runDeveloperStage, developerModelCall, generate,
                    pushTask, pushMsg, completeTask, hin, hkey, h0, h1, h2, herr, hdp, hpb,
                    htk, hfl, inlineDeveloperCall_ok, ModelOutcome.isOk,
                    drop_length_map_append, take_length_map_append,
                    List.drop_left, List.take_left, List.append_assoc] <;>
              exact map_fresh_id app.tasks app.nextId _ hfresh
                (by intro t ht; (try simp only [Function.comp_apply]); split_ifs <;> first | rfl | omega)
          · rcases hok 0 (by omega) with ⟨t0, g0, h0⟩
            rcases hok 1 (by omega) with ⟨t1, g1, h1⟩
            rcases hok 2 (by omega) with ⟨t2, g2, h2⟩
            rcases hok 3 (by omega) with ⟨t3, g3, h3⟩
            rcases hdp : env.parseDesigner (cleanJson (jsOr t0 emptyObjText)) with _ | pd <;>
              rcases hpd : env.parseDev (cleanJson (jsOr t3 emptyObjText)) with _ | d <;>
                simp [handleSendMessage, pipelineBody, designerStage, architectStage,
                      inlineDeveloperBlock, runDeveloperStage, developerModelCall,
                      runCriticStage, generate, pushTask, pushMsg, completeTask,
                      hin, hkey, h0, h1, h2, h3, herr, hdp, hpd, hpb, htk, hfl,
                      inlineDeveloperCall_ok, ModelOutcome.isOk,
                      drop_length_map_append, take_length_map_append,
                      List.drop_left, List.take_left, List.append_assoc] <;>
                exact map_fresh_id app.tasks app.nextId _ hfresh
                  (by intro t ht; (try simp only [Function.comp_apply]); split_ifs <;> first | rfl | omega)
          · rcases hok 0 (by omega) with ⟨t0, g0, h0⟩
            rcases hok 1 (by omega) with ⟨t1, g1, h1⟩
            rcases hok 2 (by omega) with ⟨t2, g2, h2⟩
            rcases hok 3 (by omega) with ⟨t3, g3, h3⟩
            rcases hok 4 (by omega) with ⟨t4, g4, h4⟩
            rcases hdp : env.parseDesigner (cleanJson (jsOr t0 emptyObjText)) with _ | pd <;>
              rcases hpd : env.parseDev (cleanJson (jsOr t3 emptyObjText)) with _ | d <;>
                simp [handleSendMessage, pipelineBody, designerStage, architectStage,
                      inlineDeveloperBlock, runDeveloperStage, developerModelCall,
                      runCriticStage, generate, pushTask, pushMsg, completeTask,
                      hin, hkey, h0, h1, h2, h3, h4, hdp, hpd, hpb, htk, hfl,
                      inlineDeveloperCall_ok, ModelOutcome.isOk] at hreach <;>
                omega

/-- Witness for C3: concrete paused team run reaching the amended hand-off
conclusions. -/
theorem c3_amended_handoff_witness :
    jsTrim demoApp.inputValue ≠ "" ∧
    detectTemplateKey (sanitizeForPrompt demoApp.inputValue) = none ∧
    ((handleSendMessage .team ⟨false, false, none⟩ demoOkEnv demoApp).2.map
        GenRequest.role) = [Role.designer, Role.architect] :=
  ⟨by decide, by decide,
   (c3_amended_handoff demoApp ⟨false, false, none⟩ demoOkEnv demoOkEnv demoOkEnv
      "modeltext" "modeltext" "modeltext" "modeltext" [] [] [] []
      (by decide) rfl rfl rfl (by decide) rfl rfl rfl rfl rfl).1⟩

/-- Witness for C4: the canonical kanban request short-circuits to the
template and only the critic issues a request. -/
theorem c4_template_short_circuit_witness :
    jsTrim kanbanApp.inputValue ≠ "" ∧
    detectTemplateKey (sanitizeForPrompt kanbanApp.inputValue) = some TemplateKey.kanban ∧
    ((handleSendMessage .developer ⟨false, false, none⟩ demoOkEnv kanbanApp).2.map
        GenRequest.role) = [Role.critic] :=
  ⟨by decide, by decide,
   (c4_template_short_circuit kanbanApp demoOkEnv none TemplateKey.kanban (by decide)
      rfl (by decide)).1⟩

/-- Witness for C5: a concrete unparseable developer response yields the
placeholder file as the active file. -/
theorem c5_parse_failure_recovery_witness :
    demoOkEnv.oracle 0 = ModelOutcome.ok "modeltext" [] ∧
    demoOkEnv.parseDev (cleanJson (jsOr "modeltext" emptyObjText)) = none ∧
    (stateOf (runDeveloperStage demoOkEnv "req" "plan" ⟨"t", "l", "b"⟩
        ⟨false, false, none⟩ none "g" ⟨demoApp, 0, []⟩)).app.activeFile =
      some (FileNode.file "Component.tsx" (some "typescript") (some devErrorContent) true) :=
  ⟨rfl, rfl,
   (c5_parse_failure_recovery demoOkEnv "req" "plan" ⟨"t", "l", "b"⟩ ⟨false, false, none⟩
      "g" ⟨demoApp, 0, []⟩ "modeltext" [] rfl rfl).2.1⟩

/-- Witness for C6: a designer-stage throw at the first call yields exactly
one classified system message. -/
theorem c6_stage_failure_abort_witness :
    (0 < (handleSendMessage .designer ⟨false, false, none⟩ failEnv demoApp).2.length) ∧
    (((handleSendMessage .designer ⟨false, false, none⟩ failEnv demoApp).1.messages.drop
        demoApp.messages.length).filter (fun m => m.sender == Sender.system)).map
        ChatMessage.text = [agentFailureMessage (.strErr "boom")] :=
  ⟨by decide,
   (c6_stage_failure_abort .designer ⟨false, false, none⟩ failEnv demoApp 0
      (.strErr "boom") (by decide) rfl (by decide) rfl
      (fun i hi => absurd hi (Nat.not_lt_zero i)) (by decide)).2.1⟩

/-- Witness for C7: a concrete run hitting the leaked-key payload appends
the remediation system message. -/
theorem c7_error_classification_witness :
    jsTrim demoApp.inputValue ≠ "" ∧
    (((handleSendMessage .team ⟨false, false, none⟩ leakEnv demoApp).1.messages.drop
        demoApp.messages.length).filter (fun m => m.sender == Sender.system)).map
        ChatMessage.text =
      ["Error connecting to agents: " ++ leakedKeyText ++
         " Please verify your Gemini API key and network access."] :=
  ⟨by decide,
   ((c7_error_classification).1 demoApp ⟨false, false, none⟩ leakEnv
      "Your API key was reported as leaked." (by decide) rfl rfl (by decide)).1⟩

/-- Witness for C8: the balanced object `{"a":"}{"}` is extracted from
between noise text. -/
theorem c8_cleanJson_extracts_balanced_witness :
    openBrace ∉ ['n', 'o', 'i', 's', 'e'] ∧
    BalancedObject c8Obj ∧
    cleanJson ⟨['n', 'o', 'i', 's', 'e'] ++ c8Obj ++ ['t', 'a', 'i', 'l']⟩ = ⟨c8Obj⟩ :=
  ⟨by decide, by decide,
   c8_cleanJson_extracts_balanced ['n', 'o', 'i', 's', 'e'] c8Obj ['t', 'a', 'i', 'l']
     (by decide) (by decide)⟩

/-- Witness for C9: `"a{x"` has no balanced object and no `}` after its
`{`, so it is returned unchanged. -/
theorem c9_amended_fallback_witness :
    NoBalancedAtFirstBrace "a\x7bx" ∧ cleanJson "a\x7bx" = "a\x7bx" :=
  ⟨by decide, (c9_amended_fallback "a\x7bx" (by decide)).trans (by decide)⟩

end Symb
